import Mathlib

/-!
# robot-localization: the driver `main.cpp` and the filter it configures

The repository's only source file is `src/main.cpp`: it builds the landmark
list, configures a `KalmanFilter` (covariances `covariance`, `R`, `Q`), and runs
a rendering loop that moves the robot, measures the landmarks and asks the
filter for an estimate.

The numeric model is exact: every matrix is a 3×3 matrix over an arbitrary
linearly ordered field `K` (so every statement holds over `ℚ` and over `ℝ`),
the decimal literals of the source being read as exact fractions.
-/

open Matrix

namespace RobotLocalization

/-! ## Configuration matrices of `main` (lines 61-91) -/

/-- A dense 3×3 matrix, the shape of every `Eigen::MatrixXf` of `main`. -/
abbrev Mat3 (K : Type) := Matrix (Fin 3) (Fin 3) K

/-- A 3-vector, the shape of the state `(x, y, phi)`. -/
abbrev Vec3 (K : Type) := Fin 3 → K

/-- Line 61: `int n = 3;`, the number of state variables. -/
def n : Nat := 3

/-- Line 62: `int m = 3;`, the number of measurements. -/
def m : Nat := 3

/-- Lines 81-83: `covariance << 5., .0, .0, .0, 5., .0, .0, .0, 5.;` -/
def covariance (K : Type) [Field K] : Mat3 K :=
  !![5, 0, 0;
     0, 5, 0;
     0, 0, 5]

/-- Lines 85-87: `R << 1.0, 0., 0., 0., 1.0, 0., 0., 0., 0.1;` -/
def R (K : Type) [Field K] : Mat3 K :=
  !![1, 0, 0;
     0, 1, 0;
     0, 0, 1 / 10]

/-- Lines 89-91: `Q << 0.1, 0.1, 0.1, 0.1, 0.1, 0.1, 0.1, 0.1, 0.1;` -/
def Q (K : Type) [Field K] : Mat3 K :=
  !![1 / 10, 1 / 10, 1 / 10;
     1 / 10, 1 / 10, 1 / 10;
     1 / 10, 1 / 10, 1 / 10]

/-- Line 66: `x0 << 200., 200., 0.0;` -/
def x0 (K : Type) [Field K] : Vec3 K := ![200, 200, 0]

/-- Line 95: `float t0 = 0.0;` -/
def t0 (K : Type) [Field K] : K := 0

/-- The quadratic form `xᵀ M x`. -/
def quadForm {K : Type} [Field K] (M : Mat3 K) (x : Vec3 K) : K := x ⬝ᵥ M *ᵥ x

/-- Symmetric positive-semi-definite: `M = Mᵀ` and `xᵀ M x ≥ 0` for every `x`. -/
def IsPSD {K : Type} [LinearOrderedField K] (M : Mat3 K) : Prop :=
  M.IsSymm ∧ ∀ x : Vec3 K, 0 ≤ quadForm M x

/-- Symmetric positive-definite: `M = Mᵀ` and `xᵀ M x > 0` for every `x ≠ 0`. -/
def IsPD {K : Type} [LinearOrderedField K] (M : Mat3 K) : Prop :=
  M.IsSymm ∧ ∀ x : Vec3 K, x ≠ 0 → 0 < quadForm M x

/-- The initial covariance named in the convergence test of the specification:
"covariance diag(5,5,5)". -/
def specInitialCovariance (K : Type) [Field K] : Mat3 K :=
  Matrix.diagonal ![5, 5, 5]

/-- The measurement noise named in the convergence test of the specification:
"R=diag(1,1,0.1)". -/
def specMeasurementNoise (K : Type) [Field K] : Mat3 K :=
  Matrix.diagonal ![1, 1, 1 / 10]

/-! ## Covariance propagation of the filter

`KalmanFilter.h` is not part of the sources; the covariance recursion is taken
from section 4.3 of the specification. -/

/-- Modelled from the spec: the symmetrization `P = (P + Pᵀ)/2` applied after
each covariance assignment (`KalmanFilter` is missing from the sources). -/
def symmetrize {K : Type} [Field K] (P : Mat3 K) : Mat3 K := (1 / 2 : K) • (P + Pᵀ)

/-- Modelled from the spec: the covariance assignment of `predict`,
`Covariance = A·Covariance·Aᵀ + Q`, before symmetrization (`KalmanFilter::predict`
is missing from the sources). -/
def predictCovarianceRaw {K : Type} [Field K] (A P Qn : Mat3 K) : Mat3 K := A * P * Aᵀ + Qn

/-- Modelled from the spec: the covariance after `predict`,
`Covariance = A·Covariance·Aᵀ + Q`, then symmetrized (`KalmanFilter::predict` is
missing from the sources). -/
def predictCovariance {K : Type} [Field K] (A P Qn : Mat3 K) : Mat3 K :=
  symmetrize (predictCovarianceRaw A P Qn)

/-- Modelled from the spec: the matrix inverse `S⁻¹` used for the Kalman gain, as
the adjugate divided by the determinant (the inversion routine is missing from
the sources). -/
def inverse {K : Type} [Field K] (S : Mat3 K) : Mat3 K := (S.det)⁻¹ • S.adjugate

/-- Modelled from the spec: step 3 of `update`, the innovation covariance
`S = C·Covariance·Cᵀ + R` (`KalmanFilter::localization_landmarks` is missing from
the sources). -/
def innovationCovariance {K : Type} [Field K] (C P Rn : Mat3 K) : Mat3 K := C * P * Cᵀ + Rn

/-- Modelled from the spec: step 4 of `update`, the Kalman gain
`K = Covariance·Cᵀ·S⁻¹` (`KalmanFilter::localization_landmarks` is missing from
the sources). -/
def kalmanGain {K : Type} [Field K] (C P Rn : Mat3 K) : Mat3 K :=
  P * Cᵀ * inverse (innovationCovariance C P Rn)

/-- Modelled from the spec: step 6 of `update` before symmetrization,
`Covariance = (I - K·C)·Covariance` (`KalmanFilter::localization_landmarks` is
missing from the sources). -/
def updateCovarianceRaw {K : Type} [Field K] (C P Rn : Mat3 K) : Mat3 K :=
  (1 - kalmanGain C P Rn * C) * P

/-- Modelled from the spec: step 6 of `update`,
`Covariance = (I - K·C)·Covariance; symmetrize`
(`KalmanFilter::localization_landmarks` is missing from the sources). -/
def updateCovariance {K : Type} [Field K] (C P Rn : Mat3 K) : Mat3 K :=
  symmetrize (updateCovarianceRaw C P Rn)

/-- Modelled from the spec: one covariance-changing filter step, `predict` or
`update`; the Jacobians `A` and `C` are recomputed at every step, so each step
carries its own (`KalmanFilter` is missing from the sources). -/
inductive FilterStep (K : Type) where
  | predict (A : Mat3 K)
  | update (C : Mat3 K)

/-- Modelled from the spec: the covariance after one `predict` or `update` step
under the `Q` and `R` configured by `main` (`KalmanFilter` is missing from the
sources). -/
def stepCovariance {K : Type} [Field K] (P : Mat3 K) : FilterStep K → Mat3 K
  | FilterStep.predict A => predictCovariance A P (Q K)
  | FilterStep.update C => updateCovariance C P (R K)

/-- Modelled from the spec: the covariance reached from `P` by a sequence of
predict/update steps (`KalmanFilter` is missing from the sources). -/
def runCovariance {K : Type} [Field K] (P : Mat3 K) (steps : List (FilterStep K)) : Mat3 K :=
  steps.foldl stepCovariance P

/-! ## Motion model

The motion model lives in the missing `KalmanFilter` sources; it is taken from
section 4.1 of the specification. The trigonometric functions and the constant
`π` are parameters, so that the model is stated over any ordered field with a
floor function and instantiated with `Real.cos`, `Real.sin`, `Real.pi`. -/

/-- Modelled from the spec: the error taxonomy of section 7 (the filter and its
error type are missing from the sources). -/
inductive FilterError where
  | NotInitialized
  | DimensionMismatch
  | InvalidArgument
  | SingularInnovation
  deriving DecidableEq, Repr

/-- A control 2-vector `(v, omega)`, line 70: `Eigen::VectorXf control(2)`. -/
abbrev Vec2 (K : Type) := Fin 2 → K

/-- Modelled from the spec: `normalize`, wrapping an angle into `(-π, π]` by
removing the whole number of turns `⌈(θ - π) / (2π)⌉` (the angle utilities are
missing from the sources). -/
def normalize {K : Type} [LinearOrderedField K] [FloorRing K] (pi θ : K) : K :=
  θ - 2 * pi * (⌈(θ - pi) / (2 * pi)⌉ : ℤ)

/-- Modelled from the spec: the Jacobian of the unicycle model, identity on the
diagonal with `∂x'/∂θ = -v·sin(θ)·dt` and `∂y'/∂θ = v·cos(θ)·dt` (the motion
model is missing from the sources). -/
def motionJacobian {K : Type} [Field K] (cos sin : K → K) (state : Vec3 K) (control : Vec2 K)
    (dt : K) : Mat3 K :=
  !![1, 0, -(control 0) * sin (state 2) * dt;
     0, 1, control 0 * cos (state 2) * dt;
     0, 0, 1]

/-- Modelled from the spec: the contract
`predict(state, control, dt) -> (predictedState, Jacobian_A)` of the motion model:
`dt ≤ 0` is rejected with `InvalidArgument`, otherwise `x' = x + v·cos(θ)·dt`,
`y' = y + v·sin(θ)·dt`, `θ' = normalize(θ + ω·dt)` (the motion model is missing
from the sources). -/
def motionPredict {K : Type} [LinearOrderedField K] [FloorRing K] (cos sin : K → K) (pi : K)
    (state : Vec3 K) (control : Vec2 K) (dt : K) : Except FilterError (Vec3 K × Mat3 K) :=
  if dt ≤ 0 then
    Except.error FilterError.InvalidArgument
  else
    Except.ok
      (![state 0 + control 0 * cos (state 2) * dt,
         state 1 + control 0 * sin (state 2) * dt,
         normalize pi (state 2 + control 1 * dt)],
       motionJacobian cos sin state control dt)

/-! ## The singular-innovation test

Step 4 of the update of section 4.3 skips an observation whose innovation
covariance is (near-)singular. The specification names no matrix norm for the
condition number; the row-sum norm is used here. -/

/-- Modelled from the spec: the sum of the absolute values of row `i`, the
building block of the row-sum norm (the singularity test is missing from the
sources). -/
def rowSum {K : Type} [LinearOrderedField K] (S : Mat3 K) (i : Fin 3) : K :=
  |S i 0| + |S i 1| + |S i 2|

/-- Modelled from the spec: the row-sum norm `‖S‖`, the largest absolute row sum
(the singularity test is missing from the sources). -/
def normInf {K : Type} [LinearOrderedField K] (S : Mat3 K) : K :=
  max (max (rowSum S 0) (rowSum S 1)) (rowSum S 2)

/-- Modelled from the spec: the condition number `‖S‖ · ‖S⁻¹‖` of step 4 (the
singularity test is missing from the sources). -/
def conditionNumber {K : Type} [LinearOrderedField K] (S : Mat3 K) : K :=
  normInf S * normInf (inverse S)

/-- Modelled from the spec: the test of step 4, "condition number beyond a fixed
threshold, or determinant below a fixed epsilon" (the singularity test is
missing from the sources). -/
def isNearSingular {K : Type} [LinearOrderedField K] (threshold eps : K) (S : Mat3 K) : Bool :=
  decide (threshold < conditionNumber S) || decide (S.det < eps)

/-- Modelled from the spec: steps 3 to 6 of the update on the covariance, for one
observation: when the innovation covariance is (near-)singular the observation
is skipped, the covariance is left as it is and `SingularInnovation` is
reported; otherwise the covariance is corrected
(`KalmanFilter::localization_landmarks` is missing from the sources). -/
def correctCovariance {K : Type} [LinearOrderedField K] (threshold eps : K)
    (C P Rn : Mat3 K) : Mat3 K × Option FilterError :=
  if isNearSingular threshold eps (innovationCovariance C P Rn) then
    (P, some FilterError.SingularInnovation)
  else
    (updateCovariance C P Rn, none)

/-- A symmetric positive-semi-definite covariance whose first variance is
`10^14` and whose other entries are zero. -/
def stretchedCovariance (K : Type) [Field K] : Mat3 K :=
  Matrix.diagonal ![10 ^ 14, 0, 0]

/-! ## Landmarks (lines 11-25) -/

/-- The `SDL_Color` of SDL2: the four 8-bit channels `r`, `g`, `b`, `a`. -/
structure SDL_Color where
  r : Nat
  g : Nat
  b : Nat
  a : Nat
  deriving DecidableEq, Repr

/-- Modelled from the spec: a `Landmark` is a fixed 2D position plus an
identifier; `main` builds it as `Landmark(x, y, color)` and reads the member `id`
as an `SDL_Color` (`Landmark.h` is missing from the sources). -/
structure Landmark (K : Type) where
  x : K
  y : K
  id : SDL_Color

/-- Line 15: `SDL_Color color_red = {.r = 255, .g = 0, .b = 0, .a = 255 };` -/
def color_red : SDL_Color := ⟨255, 0, 0, 255⟩

/-- Line 16: `SDL_Color color_green = {.r = 0, .g = 255, .b = 0, .a = 255 };` -/
def color_green : SDL_Color := ⟨0, 255, 0, 255⟩

/-- Line 17: `SDL_Color color_blue = {.r = 0, .g = 0, .b = 255, .a = 255 };` -/
def color_blue : SDL_Color := ⟨0, 0, 255, 255⟩

/-- Line 18: `SDL_Color color_purple = {.r = 255, .g = 0, .b = 255, .a = 255 };` -/
def color_purple : SDL_Color := ⟨255, 0, 255, 255⟩

/-- Lines 11-25: `createLandmarks`, two `push_back`s onto an empty vector; the
third `push_back` (214, 312, purple) is commented out in the source. -/
def createLandmarks (K : Type) [Field K] : List (Landmark K) :=
  let lmks : List (Landmark K) := []
  let lmks := lmks ++ [Landmark.mk 300 300 color_red]
  let lmks := lmks ++ [Landmark.mk 124 478 color_blue]
  lmks

/-! ## Declared dimensions (lines 61-77) -/

/-- The `rows × cols` of a dynamically sized `Eigen::MatrixXf`. -/
structure Shape where
  rows : Nat
  cols : Nat
  deriving DecidableEq, Repr

/-- Line 65: `Eigen::VectorXf x0(n);` -/
def x0_size : Nat := n

/-- Line 70: `Eigen::VectorXf control(2);` -/
def control_size : Nat := 2

/-- Line 73: `Eigen::MatrixXf A(n, n);` -/
def A_shape : Shape := ⟨n, n⟩

/-- Line 74: `Eigen::MatrixXf C(m, n);` -/
def C_shape : Shape := ⟨m, n⟩

/-- Line 75: `Eigen::MatrixXf Q(n, n);` -/
def Q_shape : Shape := ⟨n, n⟩

/-- Line 76: `Eigen::MatrixXf R(m, m);` -/
def R_shape : Shape := ⟨m, m⟩

/-- Line 77: `Eigen::MatrixXf covariance(n, n);` -/
def covariance_shape : Shape := ⟨n, n⟩

/-- Modelled from the spec: the dimension validation at construction, for state
dimension `n` and measurement dimension `m`: `A` is `n×n`, `C` is `m×n`, `Q` is
`n×n`, `R` is `m×m`, the initial covariance is `n×n`; anything else fails with
`DimensionMismatch` (the `KalmanFilter` constructor is missing from the
sources). -/
def validateDimensions (n m : Nat) (A C Q R P : Shape) : Except FilterError Unit :=
  if A = ⟨n, n⟩ ∧ C = ⟨m, n⟩ ∧ Q = ⟨n, n⟩ ∧ R = ⟨m, m⟩ ∧ P = ⟨n, n⟩ then
    Except.ok ()
  else
    Except.error FilterError.DimensionMismatch

/-! ## The driver `main` (lines 28-175) -/

/-- The collaborators of `main` declared in the missing headers `Robot.h` and
`KalmanFilter.h`, and the macro `DT`; each is a parameter of the model. A method
that may change its receiver returns the new receiver; `move` also returns the
control vector it is given by reference; every other argument is read only. -/
structure Collaborators (K Robot KF Obs Keys : Type) where
  /-- The macro `DT`, the time step given to the filter. -/
  DT : K
  /-- The constructor `Robot(x, y, phi, size, color)`. -/
  newRobot : K → K → K → Nat → SDL_Color → Robot
  /-- The method `Robot::move(key_pressed, control)`: the receiver and the
  control vector after the call. -/
  move : Robot → Keys → Vec2 K → Robot × Vec2 K
  /-- The method `Robot::measureLandmarks(landmarks)`: the receiver after the
  call and the observations returned. -/
  measureLandmarks : Robot → List (Landmark K) → Robot × Obs
  /-- The method `Robot::get_state()`. -/
  robot_get_state : Robot → Vec3 K
  /-- The method `Robot::setPose(x, y, phi)`. -/
  setPose : Robot → K → K → K → Robot
  /-- The method `Robot::render(ren)`. -/
  render : Robot → Robot
  /-- The constructor `KalmanFilter(DT, A, C, Q, R, covariance)`. -/
  newKalmanFilter : K → Mat3 K → Mat3 K → Mat3 K → Mat3 K → Mat3 K → KF
  /-- The method `KalmanFilter::init(t0, x0)`. -/
  init : KF → K → Vec3 K → KF
  /-- The method `KalmanFilter::localization_landmarks(observed, landmarks, control)`. -/
  localization_landmarks : KF → Obs → List (Landmark K) → Vec2 K → KF
  /-- The method `KalmanFilter::get_state()`. -/
  get_state : KF → Vec3 K
  /-- The method `KalmanFilter::renderSamples(ren)`. -/
  renderSamples : KF → KF
  /-- The read `key_pressed[SDL_SCANCODE_RETURN]`. -/
  returnHeld : Keys → Bool

/-- What `main` receives from outside: the results of the three SDL set-up
calls, the contents of the variables it declares without initializing (`A`, `C`,
`control`), and the keyboard state sampled in each iteration. -/
structure Environment (K Keys : Type) where
  /-- The value returned by `SDL_Init(SDL_INIT_VIDEO)`. -/
  SDL_Init : Int
  /-- Whether `SDL_CreateWindow` returned a window (not `nullptr`). -/
  win : Bool
  /-- Whether `SDL_CreateRenderer` returned a renderer (not `nullptr`). -/
  ren : Bool
  /-- The contents of `A` (line 73), never assigned by `main`. -/
  A : Mat3 K
  /-- The contents of `C` (line 74), never assigned by `main`. -/
  C : Mat3 K
  /-- The contents of `control` (line 70) before the first `move`. -/
  control : Vec2 K
  /-- The keyboard state returned by `SDL_GetKeyboardState` in iteration `i`
  (0-based), after that iteration's `SDL_PumpEvents`. -/
  key_pressed : Nat → Keys

/-- One call made by `main`, with its arguments. -/
inductive Call (K Obs Keys : Type) where
  | sdl (name : String)
  | SDL_SetRenderDrawColor (r g b a : Nat)
  | SDL_Delay (ms : Nat)
  | print (text : String) (values : List K)
  | createLandmarks
  | robby_new (x y phi : K) (size : Nat) (color : SDL_Color)
  | robby_estimate_new (x y phi : K) (size : Nat) (color : SDL_Color)
  | robby_move (key_pressed : Keys) (control : Vec2 K)
  | robby_measureLandmarks (landmarks : List (Landmark K))
  | robby_get_state
  | robby_render
  | robby_estimate_setPose (x y phi : K)
  | robby_estimate_render
  | landmark_render (lm : Landmark K)
  | kf_new (dt : K) (A C Q R covariance : Mat3 K)
  | kf_init (t0 : K) (x0 : Vec3 K)
  | kf_localization_landmarks (observed : Obs) (landmarks : List (Landmark K))
      (control : Vec2 K)
  | kf_get_state
  | kf_renderSamples

/-- The kind of a call on the filter object `kf`. -/
inductive KfOp where
  | construct
  | init
  | localization_landmarks
  | get_state
  | renderSamples
  deriving DecidableEq, Repr

/-- The kind of a call if it is a call on `kf`, `none` for every other call. -/
def Call.kfOp {K Obs Keys : Type} : Call K Obs Keys → Option KfOp
  | Call.kf_new _ _ _ _ _ _ => some KfOp.construct
  | Call.kf_init _ _ => some KfOp.init
  | Call.kf_localization_landmarks _ _ _ => some KfOp.localization_landmarks
  | Call.kf_get_state => some KfOp.get_state
  | Call.kf_renderSamples => some KfOp.renderSamples
  | _ => none

/-- The calls on `kf` among a sequence of calls, in order. -/
def kfOps {K Obs Keys : Type} (calls : List (Call K Obs Keys)) : List KfOp :=
  calls.filterMap Call.kfOp

/-- The objects `main` keeps across iterations of its loop. -/
structure World (K Robot KF : Type) where
  robby : Robot
  robby_estimate : Robot
  kf : KF
  control : Vec2 K

/-- Lines 54-56: the colours `red` and `gray` of `main`. -/
def red : SDL_Color := ⟨255, 0, 0, 255⟩

/-- Line 56: `SDL_Color gray {.r=128, .g=128, .b=128, .a=255};` -/
def gray : SDL_Color := ⟨128, 128, 128, 255⟩

/-- Lines 143-147: the loop rendering each landmark. -/
def renderLandmarks {K Obs Keys : Type} (landmarks : List (Landmark K)) :
    List (Call K Obs Keys) :=
  landmarks.flatMap fun lm =>
    [Call.SDL_SetRenderDrawColor lm.id.r lm.id.g lm.id.b lm.id.a, Call.landmark_render lm]

/-- Lines 102-157: one pass through the body of the loop, up to the test of the
RETURN key: the objects after the pass and the calls made, in order. -/
def loopBody {K Robot KF Obs Keys : Type} (d : Collaborators K Robot KF Obs Keys)
    (landmarks : List (Landmark K)) (key_pressed : Keys) (w : World K Robot KF) :
    World K Robot KF × List (Call K Obs Keys) :=
  let moved := d.move w.robby key_pressed w.control
  let measured := d.measureLandmarks moved.1 landmarks
  let state := d.robot_get_state measured.1
  let kf1 := d.localization_landmarks w.kf measured.2 landmarks moved.2
  let x_hat := d.get_state kf1
  let estimate := d.render (d.setPose w.robby_estimate (x_hat 0) (x_hat 1) (x_hat 2))
  let robby := d.render measured.1
  let kf2 := d.renderSamples kf1
  (⟨robby, estimate, kf2, moved.2⟩,
    [Call.sdl "SDL_RenderClear",
     Call.SDL_SetRenderDrawColor 200 200 255 255,
     Call.sdl "SDL_RenderClear",
     Call.SDL_SetRenderDrawColor 0 0 0 255,
     Call.sdl "SDL_RenderPresent",
     Call.sdl "SDL_PumpEvents",
     Call.sdl "SDL_GetKeyboardState",
     Call.robby_move key_pressed w.control,
     Call.robby_measureLandmarks landmarks,
     Call.robby_get_state,
     Call.kf_localization_landmarks measured.2 landmarks moved.2,
     Call.kf_get_state,
     Call.print "True x,y,phi: %f, %f, %f" [state 0, state 1, state 2],
     Call.print "Estimated x,y,phi: %f, %f, %f" [x_hat 0, x_hat 1, x_hat 2],
     Call.robby_estimate_setPose (x_hat 0) (x_hat 1) (x_hat 2),
     Call.robby_estimate_render,
     Call.robby_render]
    ++ renderLandmarks landmarks
    ++ [Call.SDL_SetRenderDrawColor gray.r gray.g gray.b gray.a,
        Call.kf_renderSamples,
        Call.sdl "SDL_RenderPresent",
        Call.SDL_Delay 30])

/-- Lines 99-167: the loop `while (i < 10000)` from counter value `i`: the final
objects, the final counter and the calls made. The pass in which RETURN is held
runs to the end of the body, prints and leaves the loop without incrementing. -/
def mainLoop {K Robot KF Obs Keys : Type} (d : Collaborators K Robot KF Obs Keys)
    (landmarks : List (Landmark K)) (key_pressed : Nat → Keys) (i : Nat)
    (w : World K Robot KF) : World K Robot KF × Nat × List (Call K Obs Keys) :=
  if i < 10000 then
    let pass := loopBody d landmarks (key_pressed i) w
    if d.returnHeld (key_pressed i) then
      (pass.1, i, pass.2 ++ [Call.print "Exiting Program!" []])
    else
      let rest := mainLoop d landmarks key_pressed (i + 1) pass.1
      (rest.1, rest.2.1, pass.2 ++ rest.2.2)
  else
    (w, i, [])
termination_by 10000 - i

/-- What a run of `main` produces: the exit code and the calls made, in order. -/
structure Outcome (K Obs Keys : Type) where
  exitCode : Int
  calls : List (Call K Obs Keys)

/-- The value of `EXIT_SUCCESS`. -/
def EXIT_SUCCESS : Int := 0

/-- Lines 30-96 on the path where SDL starts: the calls made before the loop. -/
def setupCalls {K Robot KF Obs Keys : Type} [Field K] (d : Collaborators K Robot KF Obs Keys)
    (env : Environment K Keys) : List (Call K Obs Keys) :=
  [Call.sdl "SDL_Init", Call.sdl "SDL_CreateWindow", Call.sdl "SDL_CreateRenderer",
   Call.createLandmarks,
   Call.robby_new 200 200 0 20 red,
   Call.robby_estimate_new (x0 K 0) (x0 K 1) (x0 K 2) 18 gray,
   Call.kf_new d.DT env.A env.C (Q K) (R K) (covariance K),
   Call.kf_init (t0 K) (x0 K)]

/-- Lines 169-171: the calls made after the loop. -/
def teardownCalls {K Obs Keys : Type} : List (Call K Obs Keys) :=
  [Call.sdl "SDL_DestroyRenderer", Call.sdl "SDL_DestroyWindow", Call.sdl "SDL_Quit"]

/-- Lines 58-96: the objects `main` holds when it enters the loop. -/
def initialWorld {K Robot KF Obs Keys : Type} [Field K]
    (d : Collaborators K Robot KF Obs Keys) (env : Environment K Keys) : World K Robot KF :=
  let robby := d.newRobot 200 200 0 20 red
  let robby_estimate := d.newRobot (x0 K 0) (x0 K 1) (x0 K 2) 18 gray
  let kf := d.newKalmanFilter d.DT env.A env.C (Q K) (R K) (covariance K)
  let kf := d.init kf (t0 K) (x0 K)
  ⟨robby, robby_estimate, kf, env.control⟩

/-- Lines 28-175: `main`. Each failing SDL set-up call returns 1; otherwise the
landmarks, the robots and the filter are built, the loop runs, and `main`
returns `EXIT_SUCCESS`. -/
def main {K Robot KF Obs Keys : Type} [Field K] (d : Collaborators K Robot KF Obs Keys)
    (env : Environment K Keys) : Outcome K Obs Keys :=
  if env.SDL_Init ≠ 0 then
    ⟨1, [Call.sdl "SDL_Init", Call.sdl "SDL_GetError", Call.print "SDL_Init Error: " []]⟩
  else if env.win = false then
    ⟨1, [Call.sdl "SDL_Init", Call.sdl "SDL_CreateWindow", Call.sdl "SDL_GetError",
         Call.print "SDL_CreateWindow Error: " [], Call.sdl "SDL_Quit"]⟩
  else if env.ren = false then
    ⟨1, [Call.sdl "SDL_Init", Call.sdl "SDL_CreateWindow", Call.sdl "SDL_CreateRenderer",
         Call.sdl "SDL_DestroyWindow", Call.sdl "SDL_GetError",
         Call.print "SDL_CreateRenderer Error: " [], Call.sdl "SDL_Quit"]⟩
  else
    let landmarks := createLandmarks K
    let loop := mainLoop d landmarks env.key_pressed 0 (initialWorld d env)
    ⟨EXIT_SUCCESS, setupCalls d env ++ loop.2.2 ++ teardownCalls⟩

/-- The objects held at the start of pass `j` of the loop when no earlier pass
left it. -/
def worldAt {K Robot KF Obs Keys : Type} (d : Collaborators K Robot KF Obs Keys)
    (landmarks : List (Landmark K)) (key_pressed : Nat → Keys) (w : World K Robot KF) :
    Nat → World K Robot KF
  | 0 => w
  | j + 1 => (loopBody d landmarks (key_pressed j) (worldAt d landmarks key_pressed w j)).1

/-- The calls of the first `N` passes of the loop, pass after pass. -/
def passCalls {K Robot KF Obs Keys : Type} (d : Collaborators K Robot KF Obs Keys)
    (landmarks : List (Landmark K)) (key_pressed : Nat → Keys) (w : World K Robot KF)
    (N : Nat) : List (Call K Obs Keys) :=
  (List.range N).flatMap fun j =>
    (loopBody d landmarks (key_pressed j) (worldAt d landmarks key_pressed w j)).2

/-- The calls of one pass that the data flow of a tick consists of. -/
def Call.isDataFlow {K Obs Keys : Type} : Call K Obs Keys → Bool
  | Call.robby_move _ _ => true
  | Call.robby_measureLandmarks _ => true
  | Call.kf_localization_landmarks _ _ _ => true
  | Call.kf_get_state => true
  | Call.robby_estimate_setPose _ _ _ => true
  | Call.robby_estimate_render => true
  | _ => false

/-- A trivial set of collaborators over `ℚ`, for running the driver on concrete
input: a robot is its pose, the filter is its state estimate, no method changes
anything, and the keyboard state is whether RETURN is held. -/
def idleCollaborators : Collaborators ℚ (Vec3 ℚ) (Vec3 ℚ) Unit Bool where
  DT := 1 / 10
  newRobot := fun x y phi _ _ => ![x, y, phi]
  move := fun r _ c => (r, c)
  measureLandmarks := fun r _ => (r, ())
  robot_get_state := fun r => r
  setPose := fun _ x y phi => ![x, y, phi]
  render := fun r => r
  newKalmanFilter := fun _ _ _ _ _ _ => 0
  init := fun _ _ x => x
  localization_landmarks := fun kf _ _ _ => kf
  get_state := fun kf => kf
  renderSamples := fun kf => kf
  returnHeld := fun held => held

/-- A concrete environment: SDL starts, and RETURN is first held in pass 2. -/
def returnAtTwo : Environment ℚ Bool where
  SDL_Init := 0
  win := true
  ren := true
  A := 0
  C := 0
  control := 0
  key_pressed := fun i => decide (i = 2)

/-- Modelled from the spec: the life cycle of the filter. -/
inductive Phase where
  | Uninitialized
  | Initialized
  deriving DecidableEq, Repr

/-- Modelled from the spec: the state machine of section 4.3. `init` takes
`Uninitialized` to `Initialized`; any other operation before `init` fails with
`NotInitialized`; once initialized every operation is accepted (the
`KalmanFilter` class is missing from the sources). -/
def lifecycleStep : Phase → KfOp → Except FilterError Phase
  | Phase.Uninitialized, KfOp.init => Except.ok Phase.Initialized
  | Phase.Uninitialized, _ => Except.error FilterError.NotInitialized
  | Phase.Initialized, _ => Except.ok Phase.Initialized

/-- Modelled from the spec: the filter phase after a sequence of operations, or
the first failure (the `KalmanFilter` class is missing from the sources). -/
def lifecycleRun : Phase → List KfOp → Except FilterError Phase
  | p, [] => Except.ok p
  | p, op :: ops =>
    match lifecycleStep p op with
    | Except.ok q => lifecycleRun q ops
    | Except.error e => Except.error e

/-- The three calls on `kf` of one pass through the loop body. -/
def kfPass : List KfOp :=
  [KfOp.localization_landmarks, KfOp.get_state, KfOp.renderSamples]

/-! ## Helper lemmas on quadratic forms -/

section Quad

variable {K : Type} [LinearOrderedField K]

theorem quadForm_expand (M : Mat3 K) (x : Vec3 K) :
    quadForm M x =
      x 0 * (M 0 0 * x 0 + M 0 1 * x 1 + M 0 2 * x 2) +
      x 1 * (M 1 0 * x 0 + M 1 1 * x 1 + M 1 2 * x 2) +
      x 2 * (M 2 0 * x 0 + M 2 1 * x 1 + M 2 2 * x 2) := by
  simp [quadForm, Matrix.dotProduct, Matrix.mulVec, Fin.sum_univ_three]

theorem vec3_ne_zero {x : Vec3 K} (hx : x ≠ 0) : x 0 ≠ 0 ∨ x 1 ≠ 0 ∨ x 2 ≠ 0 := by
  by_contra h
  push_neg at h
  apply hx
  funext i
  fin_cases i
  · exact h.1
  · exact h.2.1
  · exact h.2.2

omit [LinearOrderedField K] in
/-- Entry-wise reading of a matrix literal. -/
theorem mat3_lit_apply (a b c d e f g h i : K) :
    (!![a, b, c; d, e, f; g, h, i] : Mat3 K) 0 0 = a ∧
    (!![a, b, c; d, e, f; g, h, i] : Mat3 K) 0 1 = b ∧
    (!![a, b, c; d, e, f; g, h, i] : Mat3 K) 0 2 = c ∧
    (!![a, b, c; d, e, f; g, h, i] : Mat3 K) 1 0 = d ∧
    (!![a, b, c; d, e, f; g, h, i] : Mat3 K) 1 1 = e ∧
    (!![a, b, c; d, e, f; g, h, i] : Mat3 K) 1 2 = f ∧
    (!![a, b, c; d, e, f; g, h, i] : Mat3 K) 2 0 = g ∧
    (!![a, b, c; d, e, f; g, h, i] : Mat3 K) 2 1 = h ∧
    (!![a, b, c; d, e, f; g, h, i] : Mat3 K) 2 2 = i :=
  ⟨rfl, rfl, rfl, rfl, rfl, rfl, rfl, rfl, rfl⟩

theorem covariance_entries :
    covariance K 0 0 = 5 ∧ covariance K 0 1 = 0 ∧ covariance K 0 2 = 0 ∧
    covariance K 1 0 = 0 ∧ covariance K 1 1 = 5 ∧ covariance K 1 2 = 0 ∧
    covariance K 2 0 = 0 ∧ covariance K 2 1 = 0 ∧ covariance K 2 2 = 5 :=
  mat3_lit_apply 5 0 0 0 5 0 0 0 5

theorem R_entries :
    R K 0 0 = 1 ∧ R K 0 1 = 0 ∧ R K 0 2 = 0 ∧
    R K 1 0 = 0 ∧ R K 1 1 = 1 ∧ R K 1 2 = 0 ∧
    R K 2 0 = 0 ∧ R K 2 1 = 0 ∧ R K 2 2 = 1 / 10 :=
  mat3_lit_apply 1 0 0 0 1 0 0 0 (1 / 10)

theorem Q_entries (i j : Fin 3) : Q K i j = 1 / 10 := by
  fin_cases i <;> fin_cases j <;> rfl

theorem quadForm_add (M N : Mat3 K) (x : Vec3 K) :
    quadForm (M + N) x = quadForm M x + quadForm N x := by
  simp [quadForm, Matrix.add_mulVec, Matrix.dotProduct_add]

theorem quadForm_smul (c : K) (M : Mat3 K) (x : Vec3 K) :
    quadForm (c • M) x = c * quadForm M x := by
  simp [quadForm, Matrix.smul_mulVec_assoc, Matrix.dotProduct_smul]

theorem quadForm_transpose (M : Mat3 K) (x : Vec3 K) : quadForm Mᵀ x = quadForm M x := by
  rw [quadForm_expand, quadForm_expand]
  simp only [Matrix.transpose_apply]
  ring

theorem quadForm_congruence (B M : Mat3 K) (x : Vec3 K) :
    quadForm (B * M * Bᵀ) x = quadForm M (Bᵀ *ᵥ x) := by
  unfold quadForm
  rw [← Matrix.mulVec_mulVec, ← Matrix.mulVec_mulVec, Matrix.dotProduct_mulVec,
    ← Matrix.mulVec_transpose]

theorem quadForm_symmetrize (M : Mat3 K) (x : Vec3 K) :
    quadForm (symmetrize M) x = quadForm M x := by
  unfold symmetrize
  rw [quadForm_smul, quadForm_add, quadForm_transpose]
  ring

theorem symmetrize_isSymm (M : Mat3 K) : (symmetrize M).IsSymm := by
  unfold symmetrize Matrix.IsSymm
  rw [Matrix.transpose_smul, Matrix.transpose_add, Matrix.transpose_transpose, add_comm]

theorem symmetrize_of_isSymm {M : Mat3 K} (h : M.IsSymm) : symmetrize M = M := by
  unfold symmetrize
  rw [h.eq, ← two_smul K M, smul_smul]
  norm_num

theorem IsPD.isPSD {M : Mat3 K} (h : IsPD M) : IsPSD M := by
  refine ⟨h.1, fun x => ?_⟩
  by_cases hx : x = 0
  · subst hx
    simp [quadForm]
  · exact (h.2 x hx).le

theorem IsPSD.add {M N : Mat3 K} (hM : IsPSD M) (hN : IsPSD N) : IsPSD (M + N) := by
  refine ⟨hM.1.add hN.1, fun x => ?_⟩
  rw [quadForm_add]
  exact add_nonneg (hM.2 x) (hN.2 x)

theorem IsPSD.add_isPD {M N : Mat3 K} (hM : IsPSD M) (hN : IsPD N) : IsPD (M + N) := by
  refine ⟨hM.1.add hN.1, fun x hx => ?_⟩
  rw [quadForm_add]
  exact add_pos_of_nonneg_of_pos (hM.2 x) (hN.2 x hx)

theorem IsPSD.congruence {M : Mat3 K} (hM : IsPSD M) (B : Mat3 K) : IsPSD (B * M * Bᵀ) := by
  refine ⟨?_, fun x => ?_⟩
  · unfold Matrix.IsSymm
    rw [Matrix.transpose_mul, Matrix.transpose_mul, Matrix.transpose_transpose, hM.1.eq,
      Matrix.mul_assoc]
  · rw [quadForm_congruence]
    exact hM.2 _

theorem IsPSD.symmetrize {M : Mat3 K} (hM : IsPSD M) : IsPSD (symmetrize M) := by
  rw [symmetrize_of_isSymm hM.1]
  exact hM

theorem IsPSD.diag_nonneg {M : Mat3 K} (hM : IsPSD M) (i : Fin 3) : 0 ≤ M i i := by
  have h := hM.2 (Pi.single i 1)
  simpa [quadForm] using h

theorem IsPSD.trace_nonneg {M : Mat3 K} (hM : IsPSD M) : 0 ≤ M.trace := by
  rw [Matrix.trace_fin_three]
  have h0 := hM.diag_nonneg 0
  have h1 := hM.diag_nonneg 1
  have h2 := hM.diag_nonneg 2
  linarith

/-- A symmetric positive-definite 3×3 matrix has a positive determinant: the
leading minors are positive one after the other. -/
theorem IsPD.det_pos {S : Mat3 K} (hS : IsPD S) : 0 < S.det := by
  have h1 : 0 < S 0 0 := by
    have h := hS.2 (Pi.single 0 1) (by
      intro h0
      have := congrFun h0 0
      simp at this)
    simpa [quadForm] using h
  have h2 : 0 < S 0 0 * S 1 1 - S 0 1 * S 1 0 := by
    have hy : (![S 0 1, -S 0 0, 0] : Vec3 K) ≠ 0 := by
      intro h0
      have := congrFun h0 1
      simp at this
      exact h1.ne' this
    have h := hS.2 _ hy
    rw [quadForm_expand] at h
    simp at h
    have h3 : 0 < S 0 0 * (S 0 0 * S 1 1 - S 0 1 * S 1 0) := by linarith
    exact pos_of_mul_pos_right h3 h1.le
  have hx : (![S 0 1 * S 1 2 - S 0 2 * S 1 1, S 0 2 * S 1 0 - S 0 0 * S 1 2,
      S 0 0 * S 1 1 - S 0 1 * S 1 0] : Vec3 K) ≠ 0 := by
    intro h0
    have := congrFun h0 2
    simp at this
    exact h2.ne' this
  have h := hS.2 _ hx
  rw [quadForm_expand] at h
  simp at h
  have h3 : 0 < (S 0 0 * S 1 1 - S 0 1 * S 1 0) * S.det := by
    rw [Matrix.det_fin_three]
    linarith
  exact pos_of_mul_pos_right h3 h2.le

theorem covariance_isPD : IsPD (covariance K) := by
  refine ⟨?_, ?_⟩
  · ext i j
    fin_cases i <;> fin_cases j <;> rfl
  · intro x hx
    obtain ⟨h00, h01, h02, h10, h11, h12, h20, h21, h22⟩ := covariance_entries (K := K)
    rw [quadForm_expand, h00, h01, h02, h10, h11, h12, h20, h21, h22]
    rcases vec3_ne_zero hx with h | h | h
    · nlinarith [mul_self_pos.mpr h, mul_self_nonneg (x 1), mul_self_nonneg (x 2)]
    · nlinarith [mul_self_pos.mpr h, mul_self_nonneg (x 0), mul_self_nonneg (x 2)]
    · nlinarith [mul_self_pos.mpr h, mul_self_nonneg (x 0), mul_self_nonneg (x 1)]

theorem R_isPD : IsPD (R K) := by
  refine ⟨?_, ?_⟩
  · ext i j
    fin_cases i <;> fin_cases j <;> rfl
  · intro x hx
    obtain ⟨h00, h01, h02, h10, h11, h12, h20, h21, h22⟩ := R_entries (K := K)
    rw [quadForm_expand, h00, h01, h02, h10, h11, h12, h20, h21, h22]
    rcases vec3_ne_zero hx with h | h | h
    · nlinarith [mul_self_pos.mpr h, mul_self_nonneg (x 1), mul_self_nonneg (x 2)]
    · nlinarith [mul_self_pos.mpr h, mul_self_nonneg (x 0), mul_self_nonneg (x 2)]
    · nlinarith [mul_self_pos.mpr h, mul_self_nonneg (x 0), mul_self_nonneg (x 1)]

theorem Q_quadForm (x : Vec3 K) : quadForm (Q K) x = (x 0 + x 1 + x 2) ^ 2 / 10 := by
  rw [quadForm_expand]
  simp only [Q_entries]
  ring

theorem Q_isPSD : IsPSD (Q K) := by
  refine ⟨?_, ?_⟩
  · ext i j
    simp only [Matrix.transpose_apply, Q_entries]
  · intro x
    rw [Q_quadForm]
    positivity

/-! ## The correction step in Joseph form -/

theorem inverse_mul {S : Mat3 K} (h : S.det ≠ 0) : inverse S * S = 1 := by
  unfold inverse
  rw [Matrix.smul_mul, Matrix.adjugate_mul, smul_smul, inv_mul_cancel₀ h, one_smul]

theorem mul_inverse {S : Mat3 K} (h : S.det ≠ 0) : S * inverse S = 1 := by
  unfold inverse
  rw [Matrix.mul_smul, Matrix.mul_adjugate, smul_smul, inv_mul_cancel₀ h, one_smul]

theorem inverse_isSymm {S : Mat3 K} (h : S.IsSymm) : (inverse S).IsSymm := by
  unfold inverse Matrix.IsSymm
  rw [Matrix.transpose_smul, Matrix.adjugate_transpose, h.eq]

theorem innovationCovariance_isPD {P Rn : Mat3 K} (hP : IsPSD P) (hR : IsPD Rn) (C : Mat3 K) :
    IsPD (innovationCovariance C P Rn) :=
  (hP.congruence C).add_isPD hR

theorem kalmanGain_mul_innovation {C P Rn : Mat3 K}
    (hdet : (innovationCovariance C P Rn).det ≠ 0) :
    kalmanGain C P Rn * innovationCovariance C P Rn = P * Cᵀ := by
  unfold kalmanGain
  rw [Matrix.mul_assoc, inverse_mul hdet, Matrix.mul_one]

/-- Joseph form: with an invertible innovation covariance,
`(I - G C) P = (I - G C) P (I - G C)ᵀ + G R Gᵀ` for the gain `G`. -/
theorem updateCovarianceRaw_joseph {C P Rn : Mat3 K}
    (hdet : (innovationCovariance C P Rn).det ≠ 0) :
    updateCovarianceRaw C P Rn =
      (1 - kalmanGain C P Rn * C) * P * (1 - kalmanGain C P Rn * C)ᵀ +
        kalmanGain C P Rn * Rn * (kalmanGain C P Rn)ᵀ := by
  have hGS := kalmanGain_mul_innovation hdet
  unfold updateCovarianceRaw
  generalize kalmanGain C P Rn = G at hGS ⊢
  unfold innovationCovariance at hGS
  have key : G * (C * P * Cᵀ) * Gᵀ + G * Rn * Gᵀ = P * Cᵀ * Gᵀ := by
    rw [← add_mul, ← mul_add, hGS]
  have e : (1 - G * C) * P * (Cᵀ * Gᵀ) = P * Cᵀ * Gᵀ - G * (C * P * Cᵀ) * Gᵀ := by
    simp only [sub_mul, one_mul, Matrix.mul_assoc]
  rw [Matrix.transpose_sub, Matrix.transpose_one, Matrix.transpose_mul, mul_sub, mul_one, e,
    ← key]
  abel

/-- The covariance removed by the correction is `G S Gᵀ`. -/
theorem sub_updateCovarianceRaw {C P Rn : Mat3 K} (hP : P.IsSymm) (hR : Rn.IsSymm)
    (hdet : (innovationCovariance C P Rn).det ≠ 0) :
    P - updateCovarianceRaw C P Rn =
      kalmanGain C P Rn * innovationCovariance C P Rn * (kalmanGain C P Rn)ᵀ := by
  have hS : (innovationCovariance C P Rn).IsSymm := by
    unfold innovationCovariance Matrix.IsSymm
    rw [Matrix.transpose_add, Matrix.transpose_mul, Matrix.transpose_mul,
      Matrix.transpose_transpose, hP.eq, hR.eq, Matrix.mul_assoc]
  rw [kalmanGain_mul_innovation hdet]
  unfold updateCovarianceRaw kalmanGain
  rw [Matrix.transpose_mul, Matrix.transpose_mul, Matrix.transpose_transpose, hP.eq,
    (inverse_isSymm hS).eq, sub_mul, one_mul, sub_sub_cancel]
  simp only [Matrix.mul_assoc]

theorem predictCovarianceRaw_isPSD {P Qn : Mat3 K} (hP : IsPSD P) (hQ : IsPSD Qn) (A : Mat3 K) :
    IsPSD (predictCovarianceRaw A P Qn) :=
  (hP.congruence A).add hQ

theorem updateCovarianceRaw_isPSD {P Rn : Mat3 K} (hP : IsPSD P) (hR : IsPD Rn) (C : Mat3 K) :
    IsPSD (updateCovarianceRaw C P Rn) := by
  have hdet := (innovationCovariance_isPD hP hR C).det_pos.ne'
  rw [updateCovarianceRaw_joseph hdet]
  exact (hP.congruence _).add (hR.isPSD.congruence _)

theorem stepCovariance_isPSD {P : Mat3 K} (hP : IsPSD P) (s : FilterStep K) :
    IsPSD (stepCovariance P s) := by
  cases s with
  | predict A => exact (predictCovarianceRaw_isPSD hP Q_isPSD A).symmetrize
  | update C => exact (updateCovarianceRaw_isPSD hP R_isPD C).symmetrize

theorem runCovariance_isPSD (steps : List (FilterStep K)) :
    ∀ {P : Mat3 K}, IsPSD P → IsPSD (runCovariance P steps) := by
  induction steps with
  | nil => intro P hP; exact hP
  | cons s rest ih =>
    intro P hP
    exact ih (stepCovariance_isPSD hP s)

theorem updateCovarianceRaw_trace_le {P Rn : Mat3 K} (hP : IsPSD P) (hR : IsPD Rn)
    (C : Mat3 K) : (updateCovarianceRaw C P Rn).trace ≤ P.trace := by
  have hS := innovationCovariance_isPD hP hR C
  have h := (hS.isPSD.congruence (kalmanGain C P Rn)).trace_nonneg
  rw [← sub_updateCovarianceRaw hP.1 hR.1 hS.det_pos.ne', Matrix.trace_sub] at h
  linarith

end Quad

/-! ## The singular-innovation test -/

section Singular
variable {K : Type} [LinearOrderedField K]

theorem inverse_eq_of_mul_eq_one {S X : Mat3 K} (h : S * X = 1) : inverse S = X := by
  have hdet : S.det ≠ 0 := by
    intro h0
    have h1 := congrArg Matrix.det h
    rw [Matrix.det_mul, h0, zero_mul, Matrix.det_one] at h1
    exact zero_ne_one h1
  calc inverse S = inverse S * (S * X) := by rw [h, Matrix.mul_one]
    _ = X := by rw [← Matrix.mul_assoc, inverse_mul hdet, Matrix.one_mul]

theorem normInf_diagonal (a b c : K) :
    normInf (Matrix.diagonal ![a, b, c] : Mat3 K) = max (max |a| |b|) |c| := by
  simp [normInf, rowSum]

/-- The innovation covariance of the stretched covariance under `C = I`. -/
theorem stretched_innovation :
    innovationCovariance 1 (stretchedCovariance K) (R K) =
      Matrix.diagonal ![10 ^ 14 + 1, 1, 1 / 10] := by
  unfold innovationCovariance stretchedCovariance
  rw [Matrix.one_mul, Matrix.transpose_one, Matrix.mul_one]
  ext i j
  obtain ⟨h00, h01, h02, h10, h11, h12, h20, h21, h22⟩ := R_entries (K := K)
  fin_cases i <;> fin_cases j <;>
    simp [Matrix.add_apply, h00, h01, h02, h10, h11, h12, h20, h21, h22]

theorem stretched_inverse :
    inverse (Matrix.diagonal ![10 ^ 14 + 1, 1, 1 / 10] : Mat3 K) =
      Matrix.diagonal ![1 / (10 ^ 14 + 1), 1, 10] := by
  apply inverse_eq_of_mul_eq_one
  have h : ((10 : K) ^ 14 + 1) ≠ 0 := by positivity
  rw [Matrix.diagonal_mul_diagonal]
  ext i j
  fin_cases i <;> fin_cases j <;> simp [Matrix.diagonal_apply, Matrix.one_apply, h]

theorem stretched_conditionNumber :
    conditionNumber (innovationCovariance 1 (stretchedCovariance K) (R K)) = 10 ^ 15 + 10 := by
  unfold conditionNumber
  rw [stretched_innovation, stretched_inverse, normInf_diagonal, normInf_diagonal]
  have h1 : |((10 : K) ^ 14 + 1)| = 10 ^ 14 + 1 := abs_of_pos (by positivity)
  have h2 : |(1 : K) / (10 ^ 14 + 1)| = 1 / (10 ^ 14 + 1) := abs_of_pos (by positivity)
  have h3 : |(1 : K) / 10| = 1 / 10 := abs_of_pos (by positivity)
  have h4 : |(10 : K)| = 10 := abs_of_pos (by positivity)
  have h5 : |(1 : K)| = 1 := abs_one
  rw [h1, h2, h3, h4, h5]
  have m1 : max (max ((10 : K) ^ 14 + 1) 1) (1 / 10) = 10 ^ 14 + 1 := by
    rw [max_eq_left, max_eq_left] <;> norm_num
  have m2 : max (max ((1 : K) / (10 ^ 14 + 1)) 1) 10 = 10 := by
    rw [max_eq_right]
    apply max_le
    · rw [div_le_iff₀ (by positivity)]
      norm_num
    · norm_num
  rw [m1, m2]
  ring

theorem stretchedCovariance_isPSD : IsPSD (stretchedCovariance K) := by
  refine ⟨Matrix.isSymm_diagonal _, fun x => ?_⟩
  rw [quadForm_expand]
  simp [stretchedCovariance]
  nlinarith [mul_self_nonneg (x 0)]

theorem psd_minor_aux (a b c : K) (ha : 0 ≤ a)
    (h1 : 0 ≤ a * (a * c - b * b)) (h3 : 0 ≤ a * ((c + 1) / 2) ^ 2 - b * b) :
    0 ≤ a * c - b * b := by
  rcases ha.eq_or_lt with h0 | hpos
  · rw [← h0] at h3 ⊢
    linarith
  · by_contra hneg
    push_neg at hneg
    have := mul_neg_of_pos_of_neg hpos hneg
    linarith

theorem IsPSD.minor01_nonneg {M : Mat3 K} (hM : IsPSD M) :
    0 ≤ M 0 0 * M 1 1 - M 0 1 * M 1 0 := by
  have e : M 1 0 = M 0 1 := hM.1.apply 0 1
  have h1 := hM.2 ![M 0 1, -M 0 0, 0]
  have h3 := hM.2 ![-((M 1 1 + 1) / 2), M 0 1, 0]
  rw [quadForm_expand] at h1 h3
  simp at h1 h3
  rw [e] at h1 h3 ⊢
  exact psd_minor_aux _ _ _ (hM.diag_nonneg 0) (by linarith) (by linarith)

theorem IsPSD.minor02_nonneg {M : Mat3 K} (hM : IsPSD M) :
    0 ≤ M 0 0 * M 2 2 - M 0 2 * M 2 0 := by
  have e : M 2 0 = M 0 2 := hM.1.apply 0 2
  have h1 := hM.2 ![M 0 2, 0, -M 0 0]
  have h3 := hM.2 ![-((M 2 2 + 1) / 2), 0, M 0 2]
  rw [quadForm_expand] at h1 h3
  simp at h1 h3
  rw [e] at h1 h3 ⊢
  exact psd_minor_aux _ _ _ (hM.diag_nonneg 0) (by linarith) (by linarith)

theorem IsPSD.minor12_nonneg {M : Mat3 K} (hM : IsPSD M) :
    0 ≤ M 1 1 * M 2 2 - M 1 2 * M 2 1 := by
  have e : M 2 1 = M 1 2 := hM.1.apply 1 2
  have h1 := hM.2 ![0, M 1 2, -M 1 1]
  have h3 := hM.2 ![0, -((M 2 2 + 1) / 2), M 1 2]
  rw [quadForm_expand] at h1 h3
  simp at h1 h3
  rw [e] at h1 h3 ⊢
  exact psd_minor_aux _ _ _ (hM.diag_nonneg 1) (by linarith) (by linarith)

theorem smul_one_isPD {ε : K} (hε : 0 < ε) : IsPD (ε • (1 : Mat3 K)) := by
  refine ⟨?_, fun x hx => ?_⟩
  · unfold Matrix.IsSymm
    rw [Matrix.transpose_smul, Matrix.transpose_one]
  · rw [quadForm_smul, quadForm_expand]
    simp [Matrix.one_apply]
    apply mul_pos hε
    rcases vec3_ne_zero hx with h | h | h
    · nlinarith [mul_self_pos.mpr h, mul_self_nonneg (x 1), mul_self_nonneg (x 2)]
    · nlinarith [mul_self_pos.mpr h, mul_self_nonneg (x 0), mul_self_nonneg (x 2)]
    · nlinarith [mul_self_pos.mpr h, mul_self_nonneg (x 0), mul_self_nonneg (x 1)]

theorem det_add_smul_one (M : Mat3 K) (ε : K) :
    (M + ε • (1 : Mat3 K)).det =
      M.det +
        ε * ((M 0 0 * M 1 1 - M 0 1 * M 1 0) + (M 0 0 * M 2 2 - M 0 2 * M 2 0) +
          (M 1 1 * M 2 2 - M 1 2 * M 2 1)) +
        ε ^ 2 * (M 0 0 + M 1 1 + M 2 2) + ε ^ 3 := by
  rw [Matrix.det_fin_three, Matrix.det_fin_three]
  simp [Matrix.add_apply, Matrix.smul_apply, Matrix.one_apply]
  ring

theorem IsPSD.det_nonneg {M : Mat3 K} (hM : IsPSD M) : 0 ≤ M.det := by
  by_contra hneg
  push_neg at hneg
  have hs : 0 ≤ (M 0 0 * M 1 1 - M 0 1 * M 1 0) + (M 0 0 * M 2 2 - M 0 2 * M 2 0) +
      (M 1 1 * M 2 2 - M 1 2 * M 2 1) :=
    add_nonneg (add_nonneg hM.minor01_nonneg hM.minor02_nonneg) hM.minor12_nonneg
  have ht : 0 ≤ M 0 0 + M 1 1 + M 2 2 :=
    add_nonneg (add_nonneg (hM.diag_nonneg 0) (hM.diag_nonneg 1)) (hM.diag_nonneg 2)
  obtain ⟨s, hsdef⟩ : ∃ s, s = (M 0 0 * M 1 1 - M 0 1 * M 1 0) +
      (M 0 0 * M 2 2 - M 0 2 * M 2 0) + (M 1 1 * M 2 2 - M 1 2 * M 2 1) := ⟨_, rfl⟩
  obtain ⟨t, htdef⟩ : ∃ t, t = M 0 0 + M 1 1 + M 2 2 := ⟨_, rfl⟩
  rw [← hsdef] at hs
  rw [← htdef] at ht
  have hB : 0 < s + t + 1 := by linarith
  obtain ⟨ε, hε0, hε1, hεB⟩ : ∃ ε : K, 0 < ε ∧ ε ≤ 1 ∧ ε * (s + t + 1) ≤ -M.det := by
    refine ⟨min 1 (-M.det / (s + t + 1)), lt_min one_pos (div_pos (neg_pos.mpr hneg) hB),
      min_le_left _ _, ?_⟩
    calc min 1 (-M.det / (s + t + 1)) * (s + t + 1)
        ≤ -M.det / (s + t + 1) * (s + t + 1) :=
          mul_le_mul_of_nonneg_right (min_le_right _ _) hB.le
      _ = -M.det := div_mul_cancel₀ _ hB.ne'
  have hpos := (hM.add_isPD (smul_one_isPD hε0)).det_pos
  rw [det_add_smul_one, ← hsdef, ← htdef] at hpos
  have h2 : ε ^ 2 * t ≤ ε * t :=
    mul_le_mul_of_nonneg_right (pow_le_of_le_one hε0.le hε1 (by norm_num)) ht
  have h3 : ε ^ 3 ≤ ε := pow_le_of_le_one hε0.le hε1 (by norm_num)
  linarith

theorem det_add_R (M : Mat3 K) :
    (M + R K).det =
      M.det + (M 1 1 * M 2 2 - M 1 2 * M 2 1) + (M 0 0 * M 2 2 - M 0 2 * M 2 0) +
        (M 0 0 * M 1 1 - M 0 1 * M 1 0) / 10 + M 2 2 + M 1 1 / 10 + M 0 0 / 10 + 1 / 10 := by
  obtain ⟨h00, h01, h02, h10, h11, h12, h20, h21, h22⟩ := R_entries (K := K)
  rw [Matrix.det_fin_three, Matrix.det_fin_three]
  simp only [Matrix.add_apply, h00, h01, h02, h10, h11, h12, h20, h21, h22]
  ring

theorem IsPSD.det_add_R_ge {M : Mat3 K} (hM : IsPSD M) : 1 / 10 ≤ (M + R K).det := by
  rw [det_add_R]
  have h0 := hM.det_nonneg
  have h1 := hM.minor01_nonneg
  have h2 := hM.minor02_nonneg
  have h3 := hM.minor12_nonneg
  have d0 := hM.diag_nonneg 0
  have d1 := hM.diag_nonneg 1
  have d2 := hM.diag_nonneg 2
  linarith

theorem isNearSingular_iff_of_det_ge {threshold eps : K} {S : Mat3 K} (h : eps ≤ S.det) :
    isNearSingular threshold eps S = true ↔ threshold < conditionNumber S := by
  unfold isNearSingular
  simp [not_lt.mpr h]

end Singular


/-! ## Angle normalization and the motion model -/

section Motion

variable {K : Type} [LinearOrderedField K] [FloorRing K]

theorem normalize_of_mem {pi θ : K} (hpi : 0 < pi) (hlo : -pi < θ) (hhi : θ ≤ pi) :
    normalize pi θ = θ := by
  have h2 : 0 < 2 * pi := by linarith
  have hc : ⌈(θ - pi) / (2 * pi)⌉ = 0 := by
    rw [Int.ceil_eq_iff]
    constructor
    · rw [lt_div_iff₀ h2]
      push_cast
      linarith
    · rw [div_le_iff₀ h2]
      push_cast
      linarith
  unfold normalize
  rw [hc]
  simp

theorem normalize_mem {pi : K} (hpi : 0 < pi) (θ : K) :
    -pi < normalize pi θ ∧ normalize pi θ ≤ pi := by
  have h2 : 0 < 2 * pi := by linarith
  have hq : (θ - pi) / (2 * pi) * (2 * pi) = θ - pi := div_mul_cancel₀ _ h2.ne'
  have hlt := mul_lt_mul_of_pos_right (Int.ceil_lt_add_one ((θ - pi) / (2 * pi))) h2
  have hle := mul_le_mul_of_nonneg_right (Int.le_ceil ((θ - pi) / (2 * pi))) h2.le
  rw [add_mul, hq] at hlt
  rw [hq] at hle
  unfold normalize
  constructor <;> linarith

theorem normalize_idem {pi : K} (hpi : 0 < pi) (θ : K) :
    normalize pi (normalize pi θ) = normalize pi θ :=
  normalize_of_mem hpi (normalize_mem hpi θ).1 (normalize_mem hpi θ).2

theorem motionPredict_zero_control (cos sin : K → K) {pi : K} (state : Vec3 K) {dt : K}
    (hdt : 0 < dt) :
    motionPredict cos sin pi state ![0, 0] dt =
      Except.ok (![state 0, state 1, normalize pi (state 2)],
        motionJacobian cos sin state ![0, 0] dt) := by
  unfold motionPredict
  rw [if_neg (not_le.mpr hdt)]
  simp

end Motion

/-! ## The loop of `main` -/

section Driver

variable {K Robot KF Obs Keys : Type}

theorem kfOps_append (xs ys : List (Call K Obs Keys)) :
    kfOps (xs ++ ys) = kfOps xs ++ kfOps ys :=
  List.filterMap_append xs ys Call.kfOp

theorem kfOps_renderLandmarks (landmarks : List (Landmark K)) :
    kfOps (renderLandmarks landmarks : List (Call K Obs Keys)) = [] := by
  induction landmarks with
  | nil => rfl
  | cons lm rest ih =>
    have h : (renderLandmarks (lm :: rest) : List (Call K Obs Keys)) =
        [Call.SDL_SetRenderDrawColor lm.id.r lm.id.g lm.id.b lm.id.a, Call.landmark_render lm]
          ++ renderLandmarks rest := by
      simp [renderLandmarks]
    rw [h, kfOps_append, ih]
    rfl

theorem isDataFlow_renderLandmarks (landmarks : List (Landmark K)) :
    (renderLandmarks landmarks : List (Call K Obs Keys)).filter Call.isDataFlow = [] := by
  induction landmarks with
  | nil => rfl
  | cons lm rest ih =>
    have h : (renderLandmarks (lm :: rest) : List (Call K Obs Keys)) =
        [Call.SDL_SetRenderDrawColor lm.id.r lm.id.g lm.id.b lm.id.a, Call.landmark_render lm]
          ++ renderLandmarks rest := by
      simp [renderLandmarks]
    rw [h, List.filter_append, ih]
    rfl

theorem kfOps_loopBody (d : Collaborators K Robot KF Obs Keys) (landmarks : List (Landmark K))
    (key : Keys) (w : World K Robot KF) :
    kfOps (loopBody d landmarks key w).2 = kfPass := by
  simp only [loopBody, kfOps_append, kfOps_renderLandmarks]
  rfl

theorem mainLoop_stop (d : Collaborators K Robot KF Obs Keys) (landmarks : List (Landmark K))
    (keys : Nat → Keys) {i : Nat} (w : World K Robot KF) (h : 10000 ≤ i) :
    mainLoop d landmarks keys i w = (w, i, []) := by
  rw [mainLoop, if_neg (by omega)]

theorem mainLoop_return (d : Collaborators K Robot KF Obs Keys) (landmarks : List (Landmark K))
    (keys : Nat → Keys) {i : Nat} (w : World K Robot KF) (h : i < 10000)
    (hr : d.returnHeld (keys i) = true) :
    mainLoop d landmarks keys i w =
      ((loopBody d landmarks (keys i) w).1, i,
        (loopBody d landmarks (keys i) w).2 ++ [Call.print "Exiting Program!" []]) := by
  rw [mainLoop, if_pos h]
  simp only [hr, if_true]

theorem mainLoop_continue (d : Collaborators K Robot KF Obs Keys)
    (landmarks : List (Landmark K)) (keys : Nat → Keys) {i : Nat} (w : World K Robot KF)
    (h : i < 10000) (hr : d.returnHeld (keys i) = false) :
    mainLoop d landmarks keys i w =
      ((mainLoop d landmarks keys (i + 1) (loopBody d landmarks (keys i) w).1).1,
        (mainLoop d landmarks keys (i + 1) (loopBody d landmarks (keys i) w).1).2.1,
        (loopBody d landmarks (keys i) w).2 ++
          (mainLoop d landmarks keys (i + 1) (loopBody d landmarks (keys i) w).1).2.2) := by
  rw [mainLoop, if_pos h]
  simp only [hr, Bool.false_eq_true, if_false]

theorem passCalls_succ (d : Collaborators K Robot KF Obs Keys) (landmarks : List (Landmark K))
    (keys : Nat → Keys) (w : World K Robot KF) (N : Nat) :
    passCalls d landmarks keys w (N + 1) =
      passCalls d landmarks keys w N ++
        (loopBody d landmarks (keys N) (worldAt d landmarks keys w N)).2 := by
  simp [passCalls, List.range_succ, List.flatMap_append]

/-- As long as RETURN is not held, the loop performs one pass after the other. -/
theorem mainLoop_passes (d : Collaborators K Robot KF Obs Keys) (landmarks : List (Landmark K))
    (keys : Nat → Keys) (w : World K Robot KF) (N : Nat) (hN : N ≤ 10000)
    (hno : ∀ j, j < N → d.returnHeld (keys j) = false) :
    mainLoop d landmarks keys 0 w =
      ((mainLoop d landmarks keys N (worldAt d landmarks keys w N)).1,
        (mainLoop d landmarks keys N (worldAt d landmarks keys w N)).2.1,
        passCalls d landmarks keys w N ++
          (mainLoop d landmarks keys N (worldAt d landmarks keys w N)).2.2) := by
  induction N with
  | zero => simp [passCalls, worldAt]
  | succ N ih =>
    rw [ih (by omega) (fun j hj => hno j (by omega))]
    rw [mainLoop_continue d landmarks keys (worldAt d landmarks keys w N) (by omega)
      (hno N (by omega))]
    simp only [passCalls_succ, worldAt, List.append_assoc]

/-- The loop when RETURN is first held in pass `k < 10000`: `k + 1` passes, the
exit message, and the counter left at `k`. -/
theorem mainLoop_first_return (d : Collaborators K Robot KF Obs Keys)
    (landmarks : List (Landmark K)) (keys : Nat → Keys) (w : World K Robot KF) (k : Nat)
    (hk : k < 10000) (hr : d.returnHeld (keys k) = true)
    (hno : ∀ j, j < k → d.returnHeld (keys j) = false) :
    mainLoop d landmarks keys 0 w =
      (worldAt d landmarks keys w (k + 1), k,
        passCalls d landmarks keys w (k + 1) ++ [Call.print "Exiting Program!" []]) := by
  rw [mainLoop_passes d landmarks keys w k hk.le hno,
    mainLoop_return d landmarks keys _ hk hr]
  simp only [passCalls_succ, worldAt, List.append_assoc]

/-- The loop when RETURN is held in none of the first 10000 passes: 10000 passes
and the counter left at 10000. -/
theorem mainLoop_no_return (d : Collaborators K Robot KF Obs Keys)
    (landmarks : List (Landmark K)) (keys : Nat → Keys) (w : World K Robot KF)
    (hno : ∀ j, j < 10000 → d.returnHeld (keys j) = false) :
    mainLoop d landmarks keys 0 w =
      (worldAt d landmarks keys w 10000, 10000, passCalls d landmarks keys w 10000) := by
  rw [mainLoop_passes d landmarks keys w 10000 le_rfl hno,
    mainLoop_stop d landmarks keys _ le_rfl]
  simp

theorem kfOps_passCalls (d : Collaborators K Robot KF Obs Keys) (landmarks : List (Landmark K))
    (keys : Nat → Keys) (w : World K Robot KF) (N : Nat) :
    kfOps (passCalls d landmarks keys w N) = (List.replicate N kfPass).flatten := by
  induction N with
  | zero => rfl
  | succ N ih =>
    rw [passCalls_succ, kfOps_append, ih, kfOps_loopBody]
    rw [List.replicate_succ']
    simp

/-- The shape of every run of the loop: some number `N ≤ 10000` of full passes,
followed by the exit message or by nothing. -/
theorem mainLoop_shape (d : Collaborators K Robot KF Obs Keys) (landmarks : List (Landmark K))
    (keys : Nat → Keys) (w : World K Robot KF) :
    ∃ N, N ≤ 10000 ∧
      ((mainLoop d landmarks keys 0 w).2.2 = passCalls d landmarks keys w N ∨
       (mainLoop d landmarks keys 0 w).2.2 =
          passCalls d landmarks keys w N ++ [Call.print "Exiting Program!" []]) := by
  by_cases h : ∃ k, k < 10000 ∧ d.returnHeld (keys k) = true
  · classical
    let k := Nat.find h
    have hk : k < 10000 ∧ d.returnHeld (keys k) = true := Nat.find_spec h
    have hno : ∀ j, j < k → d.returnHeld (keys j) = false := by
      intro j hj
      have := Nat.find_min h hj
      by_contra hc
      exact this ⟨by omega, by simpa using hc⟩
    refine ⟨k + 1, by omega, Or.inr ?_⟩
    rw [mainLoop_first_return d landmarks keys w k hk.1 hk.2 hno]
  · refine ⟨10000, le_rfl, Or.inl ?_⟩
    have hno : ∀ j, j < 10000 → d.returnHeld (keys j) = false := by
      intro j hj
      by_contra hc
      exact h ⟨j, hj, by simpa using hc⟩
    rw [mainLoop_no_return d landmarks keys w hno]

theorem lifecycleRun_passes (N : Nat) :
    lifecycleRun Phase.Initialized (List.replicate N kfPass).flatten =
      Except.ok Phase.Initialized := by
  induction N with
  | zero => rfl
  | succ N ih =>
    rw [List.replicate_succ, List.flatten_cons]
    simpa [kfPass, lifecycleRun, lifecycleStep] using ih

theorem main_started [Field K] (d : Collaborators K Robot KF Obs Keys)
    (env : Environment K Keys) (hinit : env.SDL_Init = 0) (hwin : env.win = true)
    (hren : env.ren = true) :
    main d env =
      ⟨EXIT_SUCCESS,
        setupCalls d env ++
          (mainLoop d (createLandmarks K) env.key_pressed 0 (initialWorld d env)).2.2 ++
          teardownCalls⟩ := by
  simp [main, hinit, hwin, hren]

theorem kfOps_setupCalls [Field K] (d : Collaborators K Robot KF Obs Keys)
    (env : Environment K Keys) :
    kfOps (setupCalls d env) = [KfOp.construct, KfOp.init] := rfl

theorem kfOps_teardownCalls :
    kfOps (teardownCalls : List (Call K Obs Keys)) = [] := rfl

theorem kf_init_not_mem_passCalls (d : Collaborators K Robot KF Obs Keys)
    (landmarks : List (Landmark K)) (keys : Nat → Keys) (w : World K Robot KF) (N : Nat)
    (t : K) (x : Vec3 K) : Call.kf_init t x ∉ passCalls d landmarks keys w N := by
  intro hmem
  have h : KfOp.init ∈ kfOps (passCalls d landmarks keys w N) :=
    List.mem_filterMap.mpr ⟨_, hmem, rfl⟩
  rw [kfOps_passCalls] at h
  obtain ⟨l, hl, hin⟩ := List.mem_flatten.mp h
  rw [List.eq_of_mem_replicate hl] at hin
  simp [kfPass] at hin

/-- The calls of a started run of `main`: the set-up, some number `N ≤ 10000` of
full passes, possibly the exit message, and the tear-down. -/
theorem main_calls_shape [Field K] (d : Collaborators K Robot KF Obs Keys)
    (env : Environment K Keys) (hinit : env.SDL_Init = 0) (hwin : env.win = true)
    (hren : env.ren = true) :
    ∃ N, N ≤ 10000 ∧ ∃ tail : List (Call K Obs Keys),
      (tail = [] ∨ tail = [Call.print "Exiting Program!" []]) ∧
      (main d env).calls =
        setupCalls d env ++
          passCalls d (createLandmarks K) env.key_pressed (initialWorld d env) N ++
          tail ++ teardownCalls := by
  obtain ⟨N, hN, h | h⟩ :=
    mainLoop_shape d (createLandmarks K) env.key_pressed (initialWorld d env)
  · refine ⟨N, hN, [], Or.inl rfl, ?_⟩
    rw [main_started d env hinit hwin hren, h]
    simp
  · refine ⟨N, hN, [Call.print "Exiting Program!" []], Or.inr rfl, ?_⟩
    rw [main_started d env hinit hwin hren, h]
    simp

end Driver

/-- C7: the three covariance matrices configured by `main` are valid covariances
in exact arithmetic: `covariance = diag(5,5,5)` and `R = diag(1,1,1/10)` are
symmetric positive-definite and equal the values named in the convergence test
of the specification; `Q` (every entry 1/10) is symmetric positive-semi-definite
with `xᵀ Q x = (x₁+x₂+x₃)²/10` and determinant 0. -/
theorem C7_configured_covariances_valid (K : Type) [LinearOrderedField K] :
    IsPD (covariance K) ∧ IsPD (R K) ∧ IsPSD (Q K) ∧
    (∀ x : Vec3 K, quadForm (Q K) x = (x 0 + x 1 + x 2) ^ 2 / 10 ∧ 0 ≤ quadForm (Q K) x) ∧
    (Q K).det = 0 ∧
    (∀ i j, Q K i j = 1 / 10) ∧
    covariance K = specInitialCovariance K ∧
    R K = specMeasurementNoise K := by
  refine ⟨covariance_isPD, R_isPD, Q_isPSD, ?_, ?_, Q_entries, ?_, ?_⟩
  · intro x
    exact ⟨Q_quadForm x, Q_isPSD.2 x⟩
  · rw [Matrix.det_fin_three]
    simp only [Q_entries]
    ring
  · ext i j
    fin_cases i <;> fin_cases j <;> simp [covariance_entries, specInitialCovariance]
  · ext i j
    fin_cases i <;> fin_cases j <;> simp [R_entries, specMeasurementNoise]

/-- C1: the covariance stays symmetric positive-semi-definite. For every 3×3
`A` and `C` and every symmetric positive-semi-definite `P`, the predict result
`A P Aᵀ + Q` and the update result `(I - K C) P` (with `S = C P Cᵀ + R`,
`K = P Cᵀ S⁻¹`) are symmetric positive-semi-definite, before and after
symmetrization, under the `Q` and `R` of `main`; hence so is every covariance
reached by a sequence of predict/update steps from `P`, and in particular from
the initial covariance `diag(5,5,5)` of `main`. -/
theorem C1_covariance_stays_symmetric_psd (K : Type) [LinearOrderedField K]
    (P : Mat3 K) (hP : IsPSD P) (A C : Mat3 K) (steps : List (FilterStep K)) :
    IsPSD (predictCovarianceRaw A P (Q K)) ∧ IsPSD (predictCovariance A P (Q K)) ∧
    IsPSD (updateCovarianceRaw C P (R K)) ∧ IsPSD (updateCovariance C P (R K)) ∧
    IsPSD (runCovariance P steps) ∧
    IsPSD (runCovariance (covariance K) steps) :=
  ⟨predictCovarianceRaw_isPSD hP Q_isPSD A,
   (predictCovarianceRaw_isPSD hP Q_isPSD A).symmetrize,
   updateCovarianceRaw_isPSD hP R_isPD C,
   (updateCovarianceRaw_isPSD hP R_isPD C).symmetrize,
   runCovariance_isPSD steps hP,
   runCovariance_isPSD steps covariance_isPD.isPSD⟩

/-- C2: one update step does not increase the trace. For every symmetric
positive-semi-definite `P`, every 3×3 `C` and the `R = diag(1,1,1/10)` of `main`,
`P' = (I - K C) P` with `S = C P Cᵀ + R` and `K = P Cᵀ S⁻¹` satisfies
`trace P' ≤ trace P`; the symmetrized covariance has the same bound. -/
theorem C2_update_reduces_trace (K : Type) [LinearOrderedField K]
    (P : Mat3 K) (hP : IsPSD P) (C : Mat3 K) :
    (updateCovarianceRaw C P (R K)).trace ≤ P.trace ∧
    (updateCovariance C P (R K)).trace ≤ P.trace := by
  have h := updateCovarianceRaw_trace_le hP R_isPD C
  refine ⟨h, ?_⟩
  unfold updateCovariance
  rw [symmetrize_of_isSymm (updateCovarianceRaw_isPSD hP R_isPD C).1]
  exact h

/-- C9 (as stated, refuted): the singular-innovation branch can be reached under
the configuration of `main`. The covariance `P = diag(10^14, 0, 0)` is symmetric
positive-semi-definite; with `C = I` the innovation covariance is
`S = diag(10^14 + 1, 1, 1/10)`, whose condition number `10^15 + 10` is beyond
the threshold `10^12` named in the specification (the quadratic forms at the
unit vectors `(1,0,0)` and `(0,0,1)` are already more than a factor `10^12`
apart), so the test of step 4 fires, here with epsilon `10^-12`, and the
observation is skipped with `SingularInnovation`. -/
theorem C9_counterexample :
    IsPSD (stretchedCovariance ℚ) ∧
    innovationCovariance 1 (stretchedCovariance ℚ) (R ℚ) =
      Matrix.diagonal ![10 ^ 14 + 1, 1, 1 / 10] ∧
    conditionNumber (innovationCovariance 1 (stretchedCovariance ℚ) (R ℚ)) = 10 ^ 15 + 10 ∧
    (10 : ℚ) ^ 12 < conditionNumber (innovationCovariance 1 (stretchedCovariance ℚ) (R ℚ)) ∧
    (10 : ℚ) ^ 12 * quadForm (innovationCovariance 1 (stretchedCovariance ℚ) (R ℚ)) ![0, 0, 1] <
      quadForm (innovationCovariance 1 (stretchedCovariance ℚ) (R ℚ)) ![1, 0, 0] ∧
    isNearSingular (10 ^ 12) (1 / 10 ^ 12)
      (innovationCovariance 1 (stretchedCovariance ℚ) (R ℚ)) = true ∧
    correctCovariance (10 ^ 12) (1 / 10 ^ 12) 1 (stretchedCovariance ℚ) (R ℚ) =
      (stretchedCovariance ℚ, some FilterError.SingularInnovation) := by
  have hc := stretched_conditionNumber (K := ℚ)
  have hlt : (10 : ℚ) ^ 12 <
      conditionNumber (innovationCovariance 1 (stretchedCovariance ℚ) (R ℚ)) := by
    rw [hc]
    norm_num
  have hns : isNearSingular (10 ^ 12) (1 / 10 ^ 12)
      (innovationCovariance 1 (stretchedCovariance ℚ) (R ℚ)) = true := by
    unfold isNearSingular
    simp [hlt]
  refine ⟨stretchedCovariance_isPSD, stretched_innovation, hc, hlt, ?_, hns, ?_⟩
  · rw [stretched_innovation, quadForm_expand, quadForm_expand]
    simp
    norm_num
  · unfold correctCovariance
    rw [if_pos hns]

/-- C9 (amended): under the `R = diag(1,1,1/10)` of `main` the innovation
covariance is never exactly singular. For every symmetric positive-semi-definite
`P` and every 3×3 `C`, `S = C P Cᵀ + R` is symmetric positive-definite,
`det S ≥ 1/10 > 0`, and `S⁻¹` is a two-sided inverse of `S`; so for an epsilon
of at most `1/10` the determinant half of the test of step 4 never fires, the
branch is entered exactly when the condition number of `S` is beyond the
threshold, and otherwise the covariance is corrected and nothing is reported. -/
theorem C9_innovation_positive_definite_amended (K : Type) [LinearOrderedField K]
    (P : Mat3 K) (hP : IsPSD P) (C : Mat3 K) :
    IsPD (innovationCovariance C P (R K)) ∧
    1 / 10 ≤ (innovationCovariance C P (R K)).det ∧
    0 < (innovationCovariance C P (R K)).det ∧
    innovationCovariance C P (R K) * inverse (innovationCovariance C P (R K)) = 1 ∧
    inverse (innovationCovariance C P (R K)) * innovationCovariance C P (R K) = 1 ∧
    (∀ threshold eps : K, eps ≤ 1 / 10 →
      (isNearSingular threshold eps (innovationCovariance C P (R K)) = true ↔
        threshold < conditionNumber (innovationCovariance C P (R K)))) ∧
    (∀ threshold eps : K, eps ≤ 1 / 10 →
      conditionNumber (innovationCovariance C P (R K)) ≤ threshold →
      correctCovariance threshold eps C P (R K) = (updateCovariance C P (R K), none)) := by
  have hS := innovationCovariance_isPD hP R_isPD C
  have hdet : 1 / 10 ≤ (innovationCovariance C P (R K)).det :=
    (hP.congruence C).det_add_R_ge
  refine ⟨hS, hdet, hS.det_pos, mul_inverse hS.det_pos.ne', inverse_mul hS.det_pos.ne',
    fun threshold eps heps => isNearSingular_iff_of_det_ge (heps.trans hdet), ?_⟩
  intro threshold eps heps hcond
  have hns : ¬ (isNearSingular threshold eps (innovationCovariance C P (R K)) = true) := by
    rw [isNearSingular_iff_of_det_ge (heps.trans hdet)]
    exact not_lt.mpr hcond
  unfold correctCovariance
  rw [if_neg hns]

/-- C3 (as stated, refuted): with zero control the predicted state is not always
the input state. At state `(0, 0, 4)` and `dt = 1` the heading `4 > π` is wrapped
to `4 - 2π`, so the predicted state differs from `(0, 0, 4)`; at `dt = -1` the
model rejects the call with `InvalidArgument` and predicts no state at all. -/
theorem C3_counterexample :
    (motionPredict Real.cos Real.sin Real.pi ![0, 0, 4] ![0, 0] 1).map Prod.fst =
        Except.ok ![0, 0, 4 - 2 * Real.pi] ∧
    (motionPredict Real.cos Real.sin Real.pi ![0, 0, 4] ![0, 0] 1).map Prod.fst ≠
        Except.ok ![0, 0, 4] ∧
    (motionPredict Real.cos Real.sin Real.pi ![0, 0, 0] ![0, 0] (-1)).map Prod.fst =
        Except.error FilterError.InvalidArgument := by
  have hpi3 := Real.pi_gt_three
  have hpi4 := Real.pi_lt_four
  have h2 : (0 : ℝ) < 2 * Real.pi := by linarith
  have hc : ⌈((4 : ℝ) - Real.pi) / (2 * Real.pi)⌉ = 1 := by
    rw [Int.ceil_eq_iff]
    constructor
    · rw [lt_div_iff₀ h2]
      push_cast
      linarith
    · rw [div_le_iff₀ h2]
      push_cast
      linarith
  have hn : normalize Real.pi (4 : ℝ) = 4 - 2 * Real.pi := by
    unfold normalize
    rw [hc]
    simp
  have h1 : (motionPredict Real.cos Real.sin Real.pi ![0, 0, 4] ![0, 0] 1).map Prod.fst =
      Except.ok ![0, 0, 4 - 2 * Real.pi] := by
    rw [motionPredict_zero_control Real.cos Real.sin _ one_pos]
    simp [Except.map, hn]
  refine ⟨h1, ?_, ?_⟩
  · rw [h1]
    intro h
    have h3 := congrFun (Except.ok.inj h) 2
    simp at h3
    linarith
  · unfold motionPredict
    rw [if_pos (by norm_num)]
    rfl

/-- C3 (amended): with zero control `(v, ω) = (0, 0)`, for every `dt > 0` and
every state `(x, y, θ)` whose heading lies in `(-π, π]`, the predict step of the
unicycle motion model returns the state `(x, y, θ)` unchanged. -/
theorem C3_prediction_only_amended (K : Type) [LinearOrderedField K] [FloorRing K]
    (cos sin : K → K) (pi : K) (hpi : 0 < pi) (state : Vec3 K)
    (hlo : -pi < state 2) (hhi : state 2 ≤ pi) (dt : K) (hdt : 0 < dt) :
    (motionPredict cos sin pi state ![0, 0] dt).map Prod.fst = Except.ok state := by
  rw [motionPredict_zero_control cos sin state hdt, normalize_of_mem hpi hlo hhi]
  have h : (![state 0, state 1, state 2] : Vec3 K) = state := by
    funext i
    fin_cases i <;> rfl
  simp [Except.map, h]

/-- Witness for C3 (amended): the state `(1, 2, 1/2)` with `dt = 1/10` over the
reals, with the real cosine, sine and `π`. -/
theorem C3_prediction_only_amended_witness :
    (motionPredict Real.cos Real.sin Real.pi ![1, 2, 1 / 2] ![0, 0] (1 / 10)).map Prod.fst =
      Except.ok ![1, 2, 1 / 2] :=
  C3_prediction_only_amended ℝ Real.cos Real.sin Real.pi Real.pi_pos ![1, 2, 1 / 2]
    (by
      have := Real.pi_pos
      simp
      linarith)
    (by
      have := Real.pi_gt_three
      simp
      linarith)
    (1 / 10) (by norm_num)

/-- Witness for C1: the initial covariance of `main` over `ℚ`, the identity as
both Jacobians, and one predict followed by one update. -/
theorem C1_covariance_stays_symmetric_psd_witness :
    IsPSD (predictCovarianceRaw (1 : Mat3 ℚ) (covariance ℚ) (Q ℚ)) ∧
    IsPSD (predictCovariance (1 : Mat3 ℚ) (covariance ℚ) (Q ℚ)) ∧
    IsPSD (updateCovarianceRaw (1 : Mat3 ℚ) (covariance ℚ) (R ℚ)) ∧
    IsPSD (updateCovariance (1 : Mat3 ℚ) (covariance ℚ) (R ℚ)) ∧
    IsPSD (runCovariance (covariance ℚ) [FilterStep.predict 1, FilterStep.update 1]) ∧
    IsPSD (runCovariance (covariance ℚ) [FilterStep.predict 1, FilterStep.update 1]) :=
  C1_covariance_stays_symmetric_psd ℚ (covariance ℚ) covariance_isPD.isPSD 1 1
    [FilterStep.predict 1, FilterStep.update 1]

/-- Witness for C2: the initial covariance of `main` over `ℚ` and the identity
output Jacobian. -/
theorem C2_update_reduces_trace_witness :
    (updateCovarianceRaw (1 : Mat3 ℚ) (covariance ℚ) (R ℚ)).trace ≤ (covariance ℚ).trace ∧
    (updateCovariance (1 : Mat3 ℚ) (covariance ℚ) (R ℚ)).trace ≤ (covariance ℚ).trace :=
  C2_update_reduces_trace ℚ (covariance ℚ) covariance_isPD.isPSD 1

/-- Witness for C9 (amended): the initial covariance of `main` over `ℚ` and the
identity output Jacobian. -/
theorem C9_innovation_positive_definite_amended_witness :
    IsPD (innovationCovariance (1 : Mat3 ℚ) (covariance ℚ) (R ℚ)) ∧
    1 / 10 ≤ (innovationCovariance (1 : Mat3 ℚ) (covariance ℚ) (R ℚ)).det ∧
    0 < (innovationCovariance (1 : Mat3 ℚ) (covariance ℚ) (R ℚ)).det :=
  ⟨(C9_innovation_positive_definite_amended ℚ (covariance ℚ) covariance_isPD.isPSD 1).1,
   (C9_innovation_positive_definite_amended ℚ (covariance ℚ) covariance_isPD.isPSD 1).2.1,
   (C9_innovation_positive_definite_amended ℚ (covariance ℚ) covariance_isPD.isPSD 1).2.2.1⟩

/-- C8: `createLandmarks` takes no input and returns exactly two landmarks, in
this order: position (300, 300) with identifier red (255,0,0,255), then position
(124, 478) with identifier blue (0,0,255,255); the identifiers are pairwise
distinct, and the purple landmark at (214, 312) of the commented-out line is not
in the list. -/
theorem C8_createLandmarks_two_landmarks (K : Type) [LinearOrderedField K] :
    createLandmarks K =
      [Landmark.mk 300 300 (SDL_Color.mk 255 0 0 255),
       Landmark.mk 124 478 (SDL_Color.mk 0 0 255 255)] ∧
    (createLandmarks K).length = 2 ∧
    ((createLandmarks K).map Landmark.id).Nodup ∧
    (∀ lm ∈ createLandmarks K,
      lm.id ≠ color_purple ∧ ¬ (lm.x = 214 ∧ lm.y = 312)) := by
  refine ⟨rfl, rfl, ?_, ?_⟩
  · show [color_red, color_blue].Nodup
    decide
  intro lm hlm
  have h : lm = Landmark.mk 300 300 color_red ∨ lm = Landmark.mk 124 478 color_blue := by
    simpa [createLandmarks] using hlm
  rcases h with h | h
  · subst h
    refine ⟨?_, ?_⟩
    · show color_red ≠ color_purple
      decide
    · rintro ⟨hx, -⟩
      norm_num at hx
  · subst h
    refine ⟨?_, ?_⟩
    · show color_blue ≠ color_purple
      decide
    · rintro ⟨hx, -⟩
      norm_num at hx

/-- C5: the configuration `main` passes at construction is dimensionally
consistent with state dimension `n = 3` and measurement dimension `m = 3`: `A` is
`n×n`, `C` is `m×n`, `Q` is `n×n`, `R` is `m×m`, the initial covariance is `n×n`,
`x0` has length `n` and the control vector has length 2; the dimension validation
accepts this configuration, and rejects a 2×2 `A` with `DimensionMismatch`. -/
theorem C5_main_dimensions_consistent :
    n = 3 ∧ m = 3 ∧
    A_shape = Shape.mk n n ∧ C_shape = Shape.mk m n ∧ Q_shape = Shape.mk n n ∧
    R_shape = Shape.mk m m ∧ covariance_shape = Shape.mk n n ∧
    x0_size = n ∧ control_size = 2 ∧
    validateDimensions n m A_shape C_shape Q_shape R_shape covariance_shape = Except.ok () ∧
    validateDimensions n m (Shape.mk 2 2) C_shape Q_shape R_shape covariance_shape =
      Except.error FilterError.DimensionMismatch := by
  exact ⟨rfl, rfl, rfl, rfl, rfl, rfl, rfl, rfl, rfl, rfl, rfl⟩

/-- C4: the driver never calls a filter operation before `init`. On a path of
`main` where an SDL set-up call fails, no call is made on `kf`. On every other
path the calls on `kf` are the constructor, then one `init`, then `N ≤ 10000`
repetitions of `localization_landmarks`, `get_state`, `renderSamples`; the only
`init` call in the run is `init(0, (200, 200, 0))`; and the life cycle of the
filter accepts the whole sequence from `Uninitialized` without `NotInitialized`. -/
theorem C4_no_operation_before_init {K Robot KF Obs Keys : Type} [Field K]
    (d : Collaborators K Robot KF Obs Keys) (env : Environment K Keys) :
    ((env.SDL_Init ≠ 0 ∨ env.win = false ∨ env.ren = false) →
      kfOps (main d env).calls = [] ∧ (main d env).exitCode = 1) ∧
    ((env.SDL_Init = 0 ∧ env.win = true ∧ env.ren = true) →
      ∃ N, N ≤ 10000 ∧
        kfOps (main d env).calls =
          KfOp.construct :: KfOp.init :: (List.replicate N kfPass).flatten ∧
        lifecycleRun Phase.Uninitialized (KfOp.init :: (List.replicate N kfPass).flatten) =
          Except.ok Phase.Initialized ∧
        (∀ t x, Call.kf_init t x ∈ (main d env).calls → t = 0 ∧ x = ![200, 200, 0])) := by
  constructor
  · intro h
    by_cases h1 : env.SDL_Init = 0
    · by_cases h2 : env.win = true
      · have h3 : env.ren = false := by
          rcases h with h | h | h
          · exact absurd h1 h
          · rw [h2] at h
            exact absurd h (by decide)
          · exact h
        simp [main, h1, h2, h3, kfOps, Call.kfOp]
      · have h2f : env.win = false := by simpa using h2
        simp [main, h1, h2f, kfOps, Call.kfOp]
    · simp [main, h1, kfOps, Call.kfOp]
  · rintro ⟨hinit, hwin, hren⟩
    obtain ⟨N, hN, tail, htail, hcalls⟩ := main_calls_shape d env hinit hwin hren
    have hk : kfOps tail = [] := by
      rcases htail with h | h <;> rw [h] <;> rfl
    refine ⟨N, hN, ?_, ?_, ?_⟩
    · rw [hcalls, kfOps_append, kfOps_append, kfOps_append, kfOps_setupCalls,
        kfOps_passCalls, hk, kfOps_teardownCalls]
      simp
    · have h := lifecycleRun_passes N
      simpa [lifecycleRun, lifecycleStep] using h
    · intro t x hmem
      rw [hcalls] at hmem
      simp only [List.mem_append] at hmem
      rcases hmem with ((hmem | hmem) | hmem) | hmem
      · simp only [setupCalls, List.mem_cons, List.mem_singleton, Call.kf_init.injEq,
          reduceCtorEq, false_or, List.not_mem_nil, or_false] at hmem
        obtain ⟨ht, hx⟩ := hmem
        subst ht
        subst hx
        exact ⟨rfl, rfl⟩
      · exact absurd hmem (kf_init_not_mem_passCalls d _ _ _ N t x)
      · rcases htail with h | h <;> rw [h] at hmem <;> simp at hmem
      · simp [teardownCalls] at hmem

/-- C6: the data flow of one tick. In one pass through the loop body `move`,
`measureLandmarks`, `localization_landmarks`, `get_state`, `setPose` and the
rendering of the estimate occur in this order, each exactly once:
`measureLandmarks` runs on the robot returned by `move`;
`localization_landmarks` receives the observations it returned, the landmark list
and the control left by that pass's `move`; the three components of the
`get_state` result go unchanged to `setPose` on the estimate, which is then
rendered. Every started run of `main` consists of such passes only. -/
theorem C6_per_tick_data_flow {K Robot KF Obs Keys : Type} [Field K]
    (d : Collaborators K Robot KF Obs Keys) :
    (∀ (landmarks : List (Landmark K)) (key : Keys) (w : World K Robot KF),
      (loopBody d landmarks key w).2.filter Call.isDataFlow =
        [Call.robby_move key w.control,
         Call.robby_measureLandmarks landmarks,
         Call.kf_localization_landmarks
           (d.measureLandmarks (d.move w.robby key w.control).1 landmarks).2 landmarks
           (d.move w.robby key w.control).2,
         Call.kf_get_state,
         Call.robby_estimate_setPose
           (d.get_state (d.localization_landmarks w.kf
             (d.measureLandmarks (d.move w.robby key w.control).1 landmarks).2 landmarks
             (d.move w.robby key w.control).2) 0)
           (d.get_state (d.localization_landmarks w.kf
             (d.measureLandmarks (d.move w.robby key w.control).1 landmarks).2 landmarks
             (d.move w.robby key w.control).2) 1)
           (d.get_state (d.localization_landmarks w.kf
             (d.measureLandmarks (d.move w.robby key w.control).1 landmarks).2 landmarks
             (d.move w.robby key w.control).2) 2),
         Call.robby_estimate_render] ∧
      (loopBody d landmarks key w).1.control = (d.move w.robby key w.control).2 ∧
      (loopBody d landmarks key w).1.robby_estimate =
        d.render (d.setPose w.robby_estimate
          (d.get_state (d.localization_landmarks w.kf
             (d.measureLandmarks (d.move w.robby key w.control).1 landmarks).2 landmarks
             (d.move w.robby key w.control).2) 0)
          (d.get_state (d.localization_landmarks w.kf
             (d.measureLandmarks (d.move w.robby key w.control).1 landmarks).2 landmarks
             (d.move w.robby key w.control).2) 1)
          (d.get_state (d.localization_landmarks w.kf
             (d.measureLandmarks (d.move w.robby key w.control).1 landmarks).2 landmarks
             (d.move w.robby key w.control).2) 2))) ∧
    (∀ env : Environment K Keys, env.SDL_Init = 0 → env.win = true → env.ren = true →
      ∃ N, N ≤ 10000 ∧ ∃ tail : List (Call K Obs Keys),
        tail.filter Call.isDataFlow = [] ∧
        (main d env).calls =
          setupCalls d env ++
            (List.range N).flatMap (fun j =>
              (loopBody d (createLandmarks K) (env.key_pressed j)
                (worldAt d (createLandmarks K) env.key_pressed (initialWorld d env) j)).2) ++
            tail ++ teardownCalls) := by
  constructor
  · intro landmarks key w
    refine ⟨?_, rfl, rfl⟩
    simp only [loopBody, List.filter_append, isDataFlow_renderLandmarks]
    rfl
  · intro env hinit hwin hren
    obtain ⟨N, hN, tail, htail, hcalls⟩ := main_calls_shape d env hinit hwin hren
    refine ⟨N, hN, tail, ?_, hcalls⟩
    rcases htail with h | h <;> rw [h] <;> rfl

/-- C10: the loop of `main` terminates for every sequence of keyboard states.
On a started run, if RETURN is first held in pass `k` (0-based) the loop makes
exactly `min 10000 (k + 1)` passes, each with its full filter step
(`localization_landmarks`, `get_state`, `renderSamples`), the pass in which
RETURN is seen included, followed by the exit message when `k < 10000`; if RETURN
is held in none of the first 10000 passes it makes exactly 10000 passes; `main`
then returns `EXIT_SUCCESS = 0`. -/
theorem C10_loop_terminates {K Robot KF Obs Keys : Type} [Field K]
    (d : Collaborators K Robot KF Obs Keys) (env : Environment K Keys)
    (hinit : env.SDL_Init = 0) (hwin : env.win = true) (hren : env.ren = true) :
    (main d env).exitCode = EXIT_SUCCESS ∧ EXIT_SUCCESS = 0 ∧
    (∀ k, d.returnHeld (env.key_pressed k) = true →
      (∀ j, j < k → d.returnHeld (env.key_pressed j) = false) →
      (main d env).calls =
        setupCalls d env ++
          passCalls d (createLandmarks K) env.key_pressed (initialWorld d env)
            (min 10000 (k + 1)) ++
          (if k < 10000 then [Call.print "Exiting Program!" []] else []) ++
          teardownCalls ∧
      kfOps (main d env).calls =
        KfOp.construct :: KfOp.init :: (List.replicate (min 10000 (k + 1)) kfPass).flatten ∧
      (mainLoop d (createLandmarks K) env.key_pressed 0 (initialWorld d env)).2.1 =
        min 10000 k) ∧
    ((∀ j, j < 10000 → d.returnHeld (env.key_pressed j) = false) →
      (main d env).calls =
        setupCalls d env ++
          passCalls d (createLandmarks K) env.key_pressed (initialWorld d env) 10000 ++
          teardownCalls ∧
      kfOps (main d env).calls =
        KfOp.construct :: KfOp.init :: (List.replicate 10000 kfPass).flatten ∧
      (mainLoop d (createLandmarks K) env.key_pressed 0 (initialWorld d env)).2.1 = 10000) := by
  have hmain := main_started d env hinit hwin hren
  have hnone : (∀ j, j < 10000 → d.returnHeld (env.key_pressed j) = false) →
      (main d env).calls =
        setupCalls d env ++
          passCalls d (createLandmarks K) env.key_pressed (initialWorld d env) 10000 ++
          teardownCalls ∧
      kfOps (main d env).calls =
        KfOp.construct :: KfOp.init :: (List.replicate 10000 kfPass).flatten ∧
      (mainLoop d (createLandmarks K) env.key_pressed 0 (initialWorld d env)).2.1 =
        10000 := by
    intro hno
    have hloop := mainLoop_no_return d (createLandmarks K) env.key_pressed
      (initialWorld d env) hno
    have hcalls : (main d env).calls =
        setupCalls d env ++
          passCalls d (createLandmarks K) env.key_pressed (initialWorld d env) 10000 ++
          teardownCalls := by
      rw [hmain, hloop]
    refine ⟨hcalls, ?_, ?_⟩
    · rw [hcalls, kfOps_append, kfOps_append, kfOps_setupCalls, kfOps_passCalls,
        kfOps_teardownCalls, List.append_nil]
      rfl
    · rw [hloop]
  refine ⟨?_, rfl, ?_, hnone⟩
  · rw [hmain]
  · intro k hk hno
    by_cases hlt : k < 10000
    · have hloop := mainLoop_first_return d (createLandmarks K) env.key_pressed
        (initialWorld d env) k hlt hk hno
      have hmin : min 10000 (k + 1) = k + 1 := by omega
      have hmin2 : min 10000 k = k := by omega
      have hcalls : (main d env).calls =
          setupCalls d env ++
            passCalls d (createLandmarks K) env.key_pressed (initialWorld d env) (k + 1) ++
            [Call.print "Exiting Program!" []] ++ teardownCalls := by
        rw [hmain, hloop]
        simp
      rw [hmin, hmin2, if_pos hlt]
      refine ⟨hcalls, ?_, ?_⟩
      · rw [hcalls, kfOps_append, kfOps_append, kfOps_append, kfOps_setupCalls,
          kfOps_passCalls, kfOps_teardownCalls]
        simp [kfOps, Call.kfOp]
      · rw [hloop]
    · have hmin : min 10000 (k + 1) = 10000 := by omega
      have hmin2 : min 10000 k = 10000 := by omega
      have h := hnone (fun j hj => hno j (by omega))
      rw [hmin, hmin2, if_neg hlt, List.append_nil]
      exact h

/-- Witness for C10: the idle collaborators with RETURN first held in pass 2. The
loop makes three passes and `main` returns 0. -/
theorem C10_loop_terminates_witness :
    (main idleCollaborators returnAtTwo).exitCode = 0 ∧
    kfOps (main idleCollaborators returnAtTwo).calls =
      KfOp.construct :: KfOp.init :: (List.replicate (min 10000 (2 + 1)) kfPass).flatten :=
  ⟨(C10_loop_terminates idleCollaborators returnAtTwo rfl rfl rfl).1,
   ((C10_loop_terminates idleCollaborators returnAtTwo rfl rfl rfl).2.2.1 2 (by decide)
      (by decide)).2.1⟩

/-- Witness for C4: the idle collaborators on a started run with RETURN first
held in pass 2. -/
theorem C4_no_operation_before_init_witness :
    ∃ N, N ≤ 10000 ∧
      kfOps (main idleCollaborators returnAtTwo).calls =
        KfOp.construct :: KfOp.init :: (List.replicate N kfPass).flatten ∧
      lifecycleRun Phase.Uninitialized (KfOp.init :: (List.replicate N kfPass).flatten) =
        Except.ok Phase.Initialized ∧
      (∀ t x, Call.kf_init t x ∈ (main idleCollaborators returnAtTwo).calls →
        t = 0 ∧ x = ![200, 200, 0]) :=
  (C4_no_operation_before_init idleCollaborators returnAtTwo).2 ⟨rfl, rfl, rfl⟩

/-- Witness for C6: the idle collaborators on a started run with RETURN first
held in pass 2. -/
theorem C6_per_tick_data_flow_witness :
    ∃ N, N ≤ 10000 ∧ ∃ tail : List (Call ℚ Unit Bool),
      tail.filter Call.isDataFlow = [] ∧
      (main idleCollaborators returnAtTwo).calls =
        setupCalls idleCollaborators returnAtTwo ++
          (List.range N).flatMap (fun j =>
            (loopBody idleCollaborators (createLandmarks ℚ) (returnAtTwo.key_pressed j)
              (worldAt idleCollaborators (createLandmarks ℚ) returnAtTwo.key_pressed
                (initialWorld idleCollaborators returnAtTwo) j)).2) ++
          tail ++ teardownCalls :=
  (C6_per_tick_data_flow idleCollaborators).2 returnAtTwo rfl rfl rfl

end RobotLocalization
